import Mathlib

/-!
Verification of the Provena MCP chat client and server
(src/client/mcp_client.py, src/server/provena_mcp_server.py).

The Python code is shallowly embedded: Python/JSON values become the
inductive `PyVal`, external collaborators (the OpenAI completion API, the
FastMCP transport, the Provena SDK, `json.loads`, the device flow) become
oracle functions bundled in environment structures, and each function of
the source becomes a Lean definition that mirrors its control flow.
-/

/-- Python/JSON values as they occur in the program: `None`, booleans,
integers, strings, lists and dicts.  Dict keys are themselves values, as
in Python; insertion order is kept, mirroring CPython dicts.  Opaque
values that the code merely passes through (e.g. search scores, which are
floats) are carried by whichever constructor the oracle chooses. -/
inductive PyVal where
  | none
  | bool (b : Bool)
  | int (n : Int)
  | str (s : String)
  | list (xs : List PyVal)
  | dict (kvs : List (PyVal × PyVal))
deriving Repr

/-- Structural equality on `PyVal`, mirroring Python `==` on these values
(cross-type equalities such as `True == 1` do not occur for the values the
program compares: ids and names are compared against strings). -/
def PyVal.beq : PyVal → PyVal → Bool
  | .none, .none => true
  | .bool a, .bool b => a == b
  | .int a, .int b => a == b
  | .str a, .str b => a == b
  | .list xs, .list ys => beqL xs ys
  | .dict xs, .dict ys => beqD xs ys
  | _, _ => false
where
  beqL : List PyVal → List PyVal → Bool
    | [], [] => true
    | x :: xs, y :: ys => PyVal.beq x y && beqL xs ys
    | _, _ => false
  beqD : List (PyVal × PyVal) → List (PyVal × PyVal) → Bool
    | [], [] => true
    | (k, v) :: xs, (l, w) :: ys => PyVal.beq k l && PyVal.beq v w && beqD xs ys
    | _, _ => false

instance : BEq PyVal := ⟨PyVal.beq⟩

/-- Python truthiness (`bool(v)`) for the value forms the program tests. -/
def PyVal.truthy : PyVal → Bool
  | .none => false
  | .bool b => b
  | .int n => n != 0
  | .str s => !s.data.isEmpty
  | .list xs => !xs.isEmpty
  | .dict kvs => !kvs.isEmpty

/-- First value bound to an equal key in an association list (CPython dict
lookup: keys are unique in a dict, so first = only). -/
def lookupKey : List (PyVal × PyVal) → PyVal → Option PyVal
  | [], _ => Option.none
  | (k, v) :: rest, key => if PyVal.beq k key then some v else lookupKey rest key

/-- Models `d[k]` / `d.get(k)` for a string key `k` on a dict; `none` when the key
is missing or the value is not a dict. -/
def PyVal.lookupStr (v : PyVal) (k : String) : Option PyVal :=
  match v with
  | .dict kvs => lookupKey kvs (.str k)
  | _ => Option.none

/-- Models `d.get(k, default)` with a string key. -/
def PyVal.getStrD (v : PyVal) (k : String) (dflt : PyVal) : PyVal :=
  (v.lookupStr k).getD dflt

/-- Models `d[k] = val` on a dict: replace in place if the key exists, else append
(CPython dict update semantics).  Identity on non-dicts (unreachable in the
translated code paths). -/
def setPairs : List (PyVal × PyVal) → PyVal → PyVal → List (PyVal × PyVal)
  | [], k, v => [(k, v)]
  | (k0, v0) :: rest, k, v =>
      if PyVal.beq k0 k then (k0, v) :: rest else (k0, v0) :: setPairs rest k v

/-- See `setPairs`. -/
def PyVal.setItem (d : PyVal) (k v : PyVal) : PyVal :=
  match d with
  | .dict kvs => .dict (setPairs kvs k v)
  | other => other

/-- Models `d[k] = val` with a string key. -/
def PyVal.setStr (d : PyVal) (k : String) (v : PyVal) : PyVal :=
  d.setItem (.str k) v

/-- A dict literal with string keys, as written throughout the source. -/
def sdict (kvs : List (String × PyVal)) : PyVal :=
  .dict (kvs.map (fun kv => (PyVal.str kv.1, kv.2)))

/-- Python set insertion on a list representative: append if no equal
element is present.  Set iteration order is modelled as insertion order;
every property proved about the sets below is order-independent. -/
def pyInsert (xs : List PyVal) (x : PyVal) : List PyVal :=
  if xs.any (fun y => PyVal.beq y x) then xs else xs ++ [x]

/-- Is this value a dict (`isinstance(v, dict)`)? -/
def PyVal.isDict : PyVal → Bool
  | .dict _ => true
  | _ => false

/-- Models `v == s` for a string literal `s` (the source only compares these
values against strings; no other Python type compares equal to a str). -/
def PyVal.isStrEq (v : PyVal) (s : String) : Bool :=
  match v with
  | .str t => t == s
  | _ => false

/-- Python `str.lower()` on the ASCII identifiers the program handles
(kernel-reducible, over the character list). -/
def pyLower (s : String) : String :=
  String.mk (s.data.map Char.toLower)

/-- Python `str.upper()` on ASCII identifiers. -/
def pyUpper (s : String) : String :=
  String.mk (s.data.map Char.toUpper)

/-- Python `str.startswith(pre)`. -/
def pyStartsWith (s pre : String) : Bool :=
  pre.data.isPrefixOf s.data

/-- The whitespace characters `str.strip()` removes (ASCII range). -/
def pyIsSpace (c : Char) : Bool :=
  c == ' ' || c == (Char.ofNat 9) || c == (Char.ofNat 10)
    || c == (Char.ofNat 13) || c == (Char.ofNat 11) || c == (Char.ofNat 12)

/-- Python `str.strip()`. -/
def pyTrim (s : String) : String :=
  String.mk (((s.data.dropWhile pyIsSpace).reverse.dropWhile pyIsSpace).reverse)

/-- Worker of `pyReplace`; the fuel is the input length (each step consumes
at least one character for the non-empty patterns the program uses). -/
def pyReplaceGo (old new : List Char) : Nat → List Char → List Char
  | 0, cs => cs
  | fuel + 1, cs =>
      match cs with
      | [] => []
      | c :: rest =>
          if old.isPrefixOf cs then new ++ pyReplaceGo old new fuel (cs.drop old.length)
          else c :: pyReplaceGo old new fuel rest

/-- Python `str.replace(old, new)`: every non-overlapping occurrence,
left to right. -/
def pyReplace (s old new : String) : String :=
  String.mk (pyReplaceGo old.data new.data s.data.length s.data)

/-- Worker of `pySplitOnComma`. -/
def pySplitGo (sep : Char) : List Char → List (List Char)
  | [] => [[]]
  | c :: rest =>
      let r := pySplitGo sep rest
      if c == sep then [] :: r
      else
        match r with
        | g :: gs => (c :: g) :: gs
        | [] => [[c]]

/-- Python `s.split(",")` (keeps empty fields). -/
def pySplitOnComma (s : String) : List String :=
  (pySplitGo (',') s.data).map String.mk

/-!  ## The chat client (src/client/mcp_client.py)

The OpenAI completion call, `json.loads`, the FastMCP tool/prompt calls
and the human at the confirmation prompt are external collaborators,
modelled as oracle functions in `ClientEnv`.  An oracle returning
`Except.error e` models the Python call raising an exception whose
`str(e)` is `e`.  Tool-result message content is kept as the structured
value that the source serialises with `json.dumps` (serialisation is an
injection, so nothing is lost by keeping the structured form). -/

/-- Message roles of the OpenAI chat format. -/
inductive Role where
  | system
  | user
  | assistant
  | tool
deriving Repr, DecidableEq

/-- One tool-call request inside an assistant message
(`tool_call.id`, `tool_call.function.name`, `tool_call.function.arguments`). -/
structure ToolCall where
  id : String
  function_name : String
  arguments : String
deriving Repr, DecidableEq

/-- One conversation message as appended to `messages` in `ai_chat_loop`. -/
structure Msg where
  role : Role
  content : PyVal
  tool_call_id : Option String := Option.none
  tool_calls : List ToolCall := []
deriving Repr

/-- External collaborators of one chat turn. -/
structure ClientEnv where
  /-- Models `openai_client.chat.completions.create(...)`: the assistant message
  returned for the given transcript. -/
  llm : List Msg → Msg
  /-- Models `json.loads`; `Option.none` models a raised exception. -/
  json_loads : String → Option PyVal
  /-- Models `client.get_prompt(name, args)` followed by `extract_prompt_result`. -/
  get_prompt : String → PyVal → Except String String
  /-- Models `client.call_tool(name, args)` followed by `extract_tool_result`. -/
  call_tool : String → PyVal → Except String PyVal
  /-- the human operator answer at the confirmation `input(...)` prompt. -/
  confirm : ToolCall → String

/-- Observable effects of one chat turn. -/
inductive Event where
  | llmCall
  | promptFetch (name : String) (args : PyVal)
  | gatewayCall (name : String) (args : PyVal)
  | confirmPrompt (name : String)
  | printedNotice (s : String)
deriving Repr

/-- Was an LLM request issued? -/
def Event.isLlmCall : Event → Bool
  | .llmCall => true
  | _ => false

/-- Was a remote tool call (ServiceGateway invocation) issued? -/
def Event.isGatewayCall : Event → Bool
  | .gatewayCall _ _ => true
  | _ => false

/-- Is this the user-visible round-limit notice? -/
def Event.isAbortNotice : Event → Bool
  | .printedNotice s => s == "AI: Stopping after too many tool rounds."
  | _ => false

/-- Number of LLM calls in a trace. -/
def llmCalls (evs : List Event) : Nat :=
  evs.countP Event.isLlmCall

/-- The ServiceGateway invocations in a trace. -/
def gatewayCallsOf (evs : List Event) : List Event :=
  evs.filter Event.isGatewayCall

/-- Models `requires_confirmation` (mcp_client.py).  Any tool beginning with
`create` (case-insensitively; tool names are ASCII identifiers, so
`String.toLower` agrees with `str.lower`) requires confirmation. -/
def requires_confirmation (tool_name : String) : Bool :=
  pyStartsWith (pyLower tool_name) ("create")

/-- Models `json.loads(tool_call.function.arguments or "...")` with the
`except Exception: args = ` empty-dict fallback. -/
def parseArgsVal (env : ClientEnv) (tc : ToolCall) : PyVal :=
  let raw := if tc.arguments = "" then ("\x7b\x7d") else tc.arguments
  match env.json_loads raw with
  | some v => v
  | Option.none => PyVal.dict []

/-- A tool-result message correlated to request id `id`. -/
def toolMsg (id : String) (content : PyVal) : Msg :=
  { role := .tool, content := content, tool_call_id := some id }

/-- The `json.dumps` argument of the error / cancellation tool results:
a dict with a `status` and a `message` string. -/
def statusContent (st msg : String) : PyVal :=
  sdict [(("status" : String), .str st), (("message" : String), .str msg)]

/-- Messages appended and effects produced while handling some request(s). -/
structure HandleResult where
  msgs : List Msg
  events : List Event
deriving Repr

/-- The regular tool-call path (mcp_client.py lines 204-227): invoke the
remote tool; a successful result is appended as a tool message, a raised
exception is converted to a `status: error` tool message. -/
def execRegularTool (env : ClientEnv) (tc : ToolCall) (args : PyVal) : HandleResult :=
  match env.call_tool tc.function_name args with
  | .ok data =>
      { msgs := [toolMsg tc.id data],
        events := [.gatewayCall tc.function_name args] }
  | .error e =>
      { msgs := [toolMsg tc.id (statusContent ("error") e)],
        events := [.gatewayCall tc.function_name args] }

/-- Handling of one `tool_call` of an assistant message (mcp_client.py
lines 154-227): prompt pseudo-tools are expanded into a tool result plus a
standing system message; regular tools pass the confirmation gate first;
any exception is absorbed into a `status: error` tool result. -/
def handleToolCall (env : ClientEnv) (tc : ToolCall) : HandleResult :=
  let args := parseArgsVal env tc
  if pyStartsWith tc.function_name ("get_prompt_") then
    let prompt_name := pyReplace tc.function_name ("get_prompt_") ("")
    match env.get_prompt prompt_name args with
    | .ok prompt_content =>
        { msgs := [toolMsg tc.id (.str prompt_content),
                   { role := .system,
                     content := .str (("Workflow Instructions: ") ++ prompt_content) }],
          events := [.promptFetch prompt_name args] }
    | .error e =>
        { msgs := [toolMsg tc.id (statusContent ("error") e)],
          events := [.promptFetch prompt_name args] }
  else
    if requires_confirmation tc.function_name then
      let confirmAns := pyLower (pyTrim (env.confirm tc))
      if confirmAns == "yes" || confirmAns == "y" then
        let r := execRegularTool env tc args
        { msgs := r.msgs, events := Event.confirmPrompt tc.function_name :: r.events }
      else
        { msgs := [toolMsg tc.id (statusContent ("cancelled")
                     (("User cancelled call to ") ++ tc.function_name ++ (".")))],
          events := [.confirmPrompt tc.function_name] }
    else
      execRegularTool env tc args

/-- Handling of one whole batch `msg.tool_calls`, in order. -/
def handleBatch (env : ClientEnv) : List ToolCall → HandleResult
  | [] => { msgs := [], events := [] }
  | tc :: rest =>
      let h := handleToolCall env tc
      let r := handleBatch env rest
      { msgs := h.msgs ++ r.msgs, events := h.events ++ r.events }

/-- How one user turn ended: a final assistant answer, or the round-limit
circuit breaker. -/
inductive TurnOutcome where
  | done (finalAnswer : PyVal)
  | aborted
deriving Repr

/-- Did the turn end through the round-limit circuit breaker? -/
def TurnOutcome.isAborted : TurnOutcome → Bool
  | .aborted => true
  | .done _ => false

/-- Result of one user turn: outcome, final transcript, effect trace. -/
structure TurnResult where
  outcome : TurnOutcome
  messages : List Msg
  events : List Event

/-- The inner `while True` of `ai_chat_loop` (lines 137-231), indexed by
the remaining rounds: the source increments `tool_rounds` from 0 at each
iteration and breaks with a notice once `tool_rounds > 12`, so at an
iteration `remaining = 12 - tool_rounds` rounds are still allowed and the
notice fires exactly when `remaining` reaches 0.  Each allowed round asks
the LLM, appends its message, and either finishes with its text content
(no tool calls) or appends all tool results and loops. -/
def ai_chat_loop_rounds (env : ClientEnv) : Nat → List Msg → TurnResult
  | 0, messages =>
      { outcome := .aborted, messages := messages,
        events := [.printedNotice ("AI: Stopping after too many tool rounds.")] }
  | remaining + 1, messages =>
      let msg := env.llm messages
      let messages := messages ++ [msg]
      if msg.tool_calls.isEmpty = false then
        let hb := handleBatch env msg.tool_calls
        let r := ai_chat_loop_rounds env remaining (messages ++ hb.msgs)
        { outcome := r.outcome, messages := r.messages,
          events := Event.llmCall :: (hb.events ++ r.events) }
      else
        { outcome := .done msg.content, messages := messages, events := [.llmCall] }

/-- One user turn (the body of the outer loop after the user message is
appended): `tool_rounds` starts at 0, so 12 rounds are allowed. -/
def ai_chat_loop_turn (env : ClientEnv) (messages : List Msg) : TurnResult :=
  ai_chat_loop_rounds env 12 messages

/-- One iteration of the outer `while True` (lines 131-234): read a line,
strip it, append it as a user message, run the turn.  The source has no
sentinel check on the line: every input becomes a user turn. -/
def ai_chat_loop_step (env : ClientEnv) (messages : List Msg) (line : String) : TurnResult :=
  let prompt := pyTrim line
  let messages := messages ++ [{ role := .user, content := .str prompt }]
  ai_chat_loop_turn env messages

/-- The outer read-eval-print loop applied to the available input lines
(the Python loop only ends by an exception such as Ctrl+C / EOF, modelled
as exhaustion of the input list). -/
def ai_chat_loop_session (env : ClientEnv) (messages : List Msg) :
    List String → List Msg × List Event
  | [] => (messages, [])
  | line :: rest =>
      let r := ai_chat_loop_step env messages line
      let (ms, evs) := ai_chat_loop_session env r.messages rest
      (ms, r.events ++ evs)

/-!  ## The server (src/server/provena_mcp_server.py)

The Provena SDK, `json.loads`, pydantic model construction/validation and
the device flow are external collaborators, modelled as oracles in `Sdk` /
`ServerEnv`.  `Except.error e` models a raised exception with `str(e) = e`.
Each tool returns its result value together with the list of SDK methods it
invoked (its ServiceGateway trace). -/

/-- The `DeviceFlow` auth object, reduced to the access-token material the
server reads from it (`_get_access_token` probes `tokens` duck-typedly for
one of the access-token keys; the outcome is just an optional string). -/
structure DeviceFlowAuth where
  tokens : Option String
deriving Repr, DecidableEq

/-- Models `ProvenaAuthManager`: the process-wide authentication state. -/
structure ProvenaAuthManager where
  _client : Option Unit
  _auth : Option DeviceFlowAuth
deriving Repr, DecidableEq

/-- Models `_get_access_token`: the stored access token, if any; the source ends
with `tokens.get("access_token") or ...`, so an empty token string also
yields `None`. -/
def ProvenaAuthManager._get_access_token (m : ProvenaAuthManager) : Option String :=
  match m._auth with
  | Option.none => Option.none
  | some a =>
      match a.tokens with
      | Option.none => Option.none
      | some t => if t = "" then Option.none else some t

/-- Number of occurrences of a character in a string (`access.count(".")`). -/
def countChar (s : String) (c : Char) : Nat :=
  s.toList.count c

/-- Models `_is_authenticated`: a usable access token is present and JWT-like
(exactly two dots). -/
def ProvenaAuthManager._is_authenticated (m : ProvenaAuthManager) : Bool :=
  match m._get_access_token with
  | some access => countChar access ('.') == 2
  | Option.none => false

/-- Outcome of the external device-flow ritual `DeviceFlow(...)` +
`start_device_flow()`: the token material it leaves behind, or a raised
exception. -/
inductive DeviceFlowOutcome where
  | flowOk (tokens : Option String)
  | flowExn (msg : String)
deriving Repr

/-- Models `ProvenaAuthManager.authenticate` (lines 106-136).  Returns the result
dict, the new state, and whether the device flow was actually run. -/
def ProvenaAuthManager.authenticate (m : ProvenaAuthManager) (flow : DeviceFlowOutcome) :
    PyVal × ProvenaAuthManager × Bool :=
  if m._is_authenticated then
    (sdict [(("status" : String), .str ("already_authenticated")),
            (("message" : String), .str ("Already authenticated"))], m, false)
  else
    match flow with
    | .flowExn e =>
        -- the fresh DeviceFlow object is kept; `start_device_flow` raised
        (sdict [(("status" : String), .str ("error")), (("error" : String), .str e)],
         { _client := Option.none, _auth := some { tokens := Option.none } }, true)
    | .flowOk toks =>
        let m2 : ProvenaAuthManager := { _client := Option.none, _auth := some { tokens := toks } }
        if m2._is_authenticated then
          (sdict [(("status" : String), .str ("authenticated")),
                  (("message" : String), .str ("Authentication completed successfully"))], m2, true)
        else
          (sdict [(("status" : String), .str ("error")),
                  (("error" : String), .str ("Device flow completed but no tokens were received"))],
           m2, true)

/-- Models `ProvenaAuthManager.logout`: clears all authentication state (the
token-cache file removal is filesystem state outside this model). -/
def ProvenaAuthManager.logout (_ : ProvenaAuthManager) : ProvenaAuthManager :=
  { _client := Option.none, _auth := Option.none }

/-- Models `ProvenaAuthManager.get_client` (lines 138-151); `creation_ok` is the
external outcome of the `ProvenaClient(...)` constructor.  Returns the
optional client and the updated manager state. -/
def ProvenaAuthManager.get_client (m : ProvenaAuthManager) (creation_ok : Bool) :
    Option Unit × ProvenaAuthManager :=
  if m._is_authenticated = false then (Option.none, m)
  else
    match m._client with
    | some c => (some c, m)
    | Option.none =>
        if creation_ok then (some (), { m with _client := some () })
        else (Option.none, { m with _auth := Option.none })

/-- Models `check_authentication_status` (lines 180-191): note the returned
mapping has keys `authenticated` and `message` only. -/
def check_authentication_status (m : ProvenaAuthManager) : PyVal :=
  let is_authenticated := m._is_authenticated
  sdict [(("authenticated" : String), .bool is_authenticated),
         (("message" : String),
          .str (if is_authenticated then ("Authenticated and ready")
                else ("Not authenticated - use login_to_provena")))]

/-- Models `login_to_provena` (lines 563-580): returns `auth_manager.authenticate()`
verbatim. -/
def login_to_provena (m : ProvenaAuthManager) (flow : DeviceFlowOutcome) :
    PyVal × ProvenaAuthManager × Bool :=
  m.authenticate flow

/-- Models `logout_from_provena` (lines 582-587): note the returned mapping has a
`message` key only. -/
def logout_from_provena (m : ProvenaAuthManager) : PyVal × ProvenaAuthManager :=
  (sdict [(("message" : String), .str ("Logged out successfully"))], m.logout)

/-- Models `get_current_date` (lines 1123-1135): returns the bare date string from
the external clock, not a mapping. -/
def get_current_date (today : String) : PyVal :=
  .str today

/-- One search hit of `client.search.search_registry` (`result.id`,
`result.score`; the score is opaque — a float in the source). -/
structure SearchHit where
  id : String
  score : PyVal
deriving Repr

/-- Response of `client.search.search_registry`. -/
structure SearchResponse where
  success : Bool
  details : Option String
  results : List SearchHit
deriving Repr

/-- Response of `client.registry.general_fetch_item`; registry items are
pydantic models, so the dumped item is a dict (or absent). -/
structure FetchResult where
  success : Bool
  details : Option String
  item : Option (List (PyVal × PyVal))
deriving Repr

/-- Response of `client.registry.list_general_registry_items` (items
already `_dump`ed). -/
structure ListResponse where
  success : Bool
  details : Option String
  items : List PyVal
  total_item_count : Option Int
  complete_item_count : Option Int
  has_pagination_key : Bool
deriving Repr

/-- Response of a `registry.<collection>.create_item` call. -/
structure CreateResult where
  success : Bool
  details : Option String
  created_item : Option String
deriving Repr

/-- Response of `client.datastore.mint_dataset`. -/
structure MintResult where
  success : Bool
  details : Option String
  handle : String
deriving Repr

/-- Response of `client.prov_api.create_model_run`; `session_id` is `.none`
when the attribute is absent or `None`. -/
structure ModelRunCreateResult where
  success : Bool
  details : Option String
  session_id : PyVal
deriving Repr

/-- A raised Python exception, distinguishing pydantic `ValidationError`
(carrying `ve.errors()`) from any other exception. -/
inductive PyExc where
  | validation (errors : PyVal)
  | generic (msg : String)
deriving Repr

/-- The external Provena SDK, as an oracle per method used by the tools.
Creation-call oracles are per-environment values: their payloads are opaque
to every property proved here. -/
structure Sdk where
  item_subtypes : List String
  prov_api_available : Bool
  search_registry : String → Option Int → Option String → Except String SearchResponse
  general_fetch_item : PyVal → Except String FetchResult
  list_general_registry_items : Except String ListResponse
  list_registry_items_with_count : Except String (List (String × Int))
  explore_upstream : String → Int → Except String PyVal
  explore_downstream : String → Int → Except String PyVal
  get_contributing_datasets : String → Int → Except String PyVal
  get_effected_datasets : String → Int → Except String PyVal
  get_contributing_agents : String → Int → Except String PyVal
  get_effected_agents : String → Int → Except String PyVal
  model_create_item : Except String CreateResult
  dataset_template_create_item : Except String CreateResult
  model_run_workflow_create_item : Except String CreateResult
  mint_dataset : Except String MintResult
  person_create_item : Except PyExc CreateResult
  organisation_create_item : Except PyExc CreateResult
  prov_create_model_run : Except String ModelRunCreateResult

/-- The full environment a server tool runs in: authentication state plus
external collaborators (SDK, `json.loads`, timestamp parsing, pydantic
domain-info construction). -/
structure ServerEnv where
  mgr : ProvenaAuthManager
  client_creation_ok : Bool
  sdk : Sdk
  json_loads : String → Except String PyVal
  parse_iso_timestamp : String → Except String Int
  build_model_info : Except String Unit
  build_dataset_template_info : Except String Unit
  build_workflow_template_info : Except String Unit
  build_collection_format : Except String Unit
  build_person_info : Except PyExc Unit
  build_organisation_info : Except PyExc Unit
  build_model_run_record : Except String Unit

/-- Models `require_authentication` (lines 589-595): `auth_manager.get_client()`;
the `ctx.error` on failure is logging only. -/
def require_authentication (env : ServerEnv) : Option Unit :=
  (env.mgr.get_client env.client_creation_ok).1

/-- A success-or-data dict whose first key is `status`, as every guarded
tool of the source constructs its returns. -/
def statusDict (st : String) (rest : List (String × PyVal)) : PyVal :=
  sdict ((("status" : String), PyVal.str st) :: rest)

/-- The uniform failure dict. -/
def errDictV (msg : PyVal) : PyVal :=
  statusDict ("error") [(("message" : String), msg)]

/-- The uniform failure dict with a string message. -/
def errDict (msg : String) : PyVal :=
  errDictV (.str msg)

/-- The short-circuit result of every guarded tool when no client is
available. -/
def authRequired : PyVal :=
  errDict ("Authentication required")

/-- Models `None`-or-string values (e.g. `status.details`). -/
def optStrVal : Option String → PyVal
  | some s => .str s
  | Option.none => .none

/-- Models `None`-or-int values. -/
def optIntVal : Option Int → PyVal
  | some n => .int n
  | Option.none => .none

/-- Models `None`-or-count values. -/
def optNatVal : Option Nat → PyVal
  | some n => .int n
  | Option.none => .none

/-- Python `a or b`. -/
def pyOr (a b : PyVal) : PyVal :=
  if a.truthy then a else b

/-- Models `str(v)` as interpolated into f-string messages.  Container reprs are
abbreviated; no proved property reads these texts. -/
def pyStrOf : PyVal → String
  | .str s => s
  | .int n => toString n
  | .bool b => if b then ("True") else ("False")
  | .none => ("None")
  | .list _ => ("[...]")
  | .dict _ => ("dict")

/-- Models `keys()` of a dict. -/
def dictKeys : PyVal → List PyVal
  | .dict kvs => kvs.map (fun kv => kv.1)
  | _ => []

/-- Models `xs[:n]` for an optional / possibly negative bound (a `None` bound
keeps the whole list, a negative one counts from the end). -/
def pySliceTo (xs : List PyVal) : Option Int → List PyVal
  | Option.none => xs
  | some n => if 0 ≤ n then xs.take n.toNat else xs.take (xs.length - (-n).toNat)

/-- The per-hit detail fetch inside `search_registry` (lines 642-662): on
a fetch exception or a non-success / empty item, a placeholder entry with
an `error` key is produced; otherwise the dumped item with the score
attached under `search_score`. -/
def search_fetch_details (env : ServerEnv) : List SearchHit → List PyVal × List String
  | [] => ([], [])
  | hit :: rest =>
      let entry : PyVal :=
        match env.sdk.general_fetch_item (.str hit.id) with
        | .error fetch_error =>
            sdict [(("id" : String), .str hit.id),
                   (("search_score" : String), hit.score),
                   (("error" : String), .str (("Fetch error: ") ++ fetch_error))]
        | .ok fr =>
            match fr.item with
            | some kvs =>
                if fr.success && kvs.isEmpty = false then
                  PyVal.setStr (.dict kvs) ("search_score") hit.score
                else
                  sdict [(("id" : String), .str hit.id),
                         (("search_score" : String), hit.score),
                         (("error" : String), .str ("Unable to fetch full item details"))]
            | Option.none =>
                sdict [(("id" : String), .str hit.id),
                       (("search_score" : String), hit.score),
                       (("error" : String), .str ("Unable to fetch full item details"))]
      let r := search_fetch_details env rest
      (entry :: r.1, ("registry.general_fetch_item" : String) :: r.2)

/-- Models `search_registry` (lines 599-674). -/
def search_registry (env : ServerEnv) (query : String) (limit : Option Int)
    (subtype_filter : Option String) : PyVal × List String :=
  match require_authentication env with
  | Option.none => (authRequired, [])
  | some _ =>
      let validated : Except String (Option String) :=
        match subtype_filter with
        | Option.none => .ok Option.none
        | some sf =>
            if sf.data.isEmpty then .ok Option.none
            else if env.sdk.item_subtypes.contains (pyUpper sf) then .ok (some (pyUpper sf))
            else .error (("Invalid subtype_filter. Valid options: ") ++
                     String.intercalate (", ") env.sdk.item_subtypes)
      match validated with
      | .error m => (errDict m, [])
      | .ok subtype_enum =>
          match env.sdk.search_registry query limit subtype_enum with
          | .error e => (errDict e, [("search.search_registry" : String)])
          | .ok results =>
              if results.success = false then
                (errDictV (optStrVal results.details), [("search.search_registry" : String)])
              else
                let fetched := search_fetch_details env results.results
                (statusDict ("success")
                   [(("query" : String), .str query),
                    (("total_results" : String), .int fetched.1.length),
                    (("results" : String), .list fetched.1)],
                 ("search.search_registry" : String) :: fetched.2)

/-- Models `fetch_registry_item` (lines 677-694). -/
def fetch_registry_item (env : ServerEnv) (item_id : String) : PyVal × List String :=
  match require_authentication env with
  | Option.none => (authRequired, [])
  | some _ =>
      match env.sdk.general_fetch_item (.str item_id) with
      | .error e => (errDict e, [("registry.general_fetch_item" : String)])
      | .ok fr =>
          if fr.success = false then
            (errDictV (optStrVal fr.details), [("registry.general_fetch_item" : String)])
          else
            match fr.item with
            | some kvs =>
                (statusDict ("success") [(("item" : String), .dict kvs)],
                 [("registry.general_fetch_item" : String)])
            | Option.none =>
                -- `_dump(result.item)` is `None` and the logging f-string
                -- calls `.get` on it: AttributeError, absorbed by the
                -- outer handler into an error dict.
                (errDict ("AttributeError: NoneType object has no attribute get"),
                 [("registry.general_fetch_item" : String)])

/-- Models `list_registry_items` (lines 696-726). -/
def list_registry_items (env : ServerEnv) (page_size : Option Int) : PyVal × List String :=
  match require_authentication env with
  | Option.none => (authRequired, [])
  | some _ =>
      match env.sdk.list_general_registry_items with
      | .error e => (errDict e, [("registry.list_general_registry_items" : String)])
      | .ok lr =>
          if lr.success = false then
            (errDictV (optStrVal lr.details), [("registry.list_general_registry_items" : String)])
          else
            let items := pySliceTo lr.items page_size
            (statusDict ("success")
               [(("items" : String), .list items),
                (("pagination" : String),
                 sdict [(("shown_items" : String), .int items.length),
                        (("total_item_count" : String), optIntVal lr.total_item_count),
                        (("complete_item_count" : String), optIntVal lr.complete_item_count),
                        (("has_pagination_key" : String), .bool lr.has_pagination_key)])],
             [("registry.list_general_registry_items" : String)])

/-- Models `get_registry_items_count` (lines 728-762). -/
def get_registry_items_count (env : ServerEnv) : PyVal × List String :=
  match require_authentication env with
  | Option.none => (authRequired, [])
  | some _ =>
      match env.sdk.list_registry_items_with_count with
      | .error e => (errDict e, [("registry.list_registry_items_with_count" : String)])
      | .ok counts =>
          let readable := counts.foldl
            (fun acc kv => PyVal.setStr acc (pyLower kv.1) (.int kv.2)) (PyVal.dict [])
          let total := counts.foldl (fun acc kv => acc + kv.2) (0 : Int)
          (statusDict ("success")
             [(("total_items" : String), .int total),
              (("counts_by_subtype" : String), readable),
              (("subtypes" : String), .list (dictKeys readable))],
           [("registry.list_registry_items_with_count" : String)])

/-- Models `_status_success` (lines 771-778), applied to the dumped response: the
pydantic dump carries `status.success` / `status.details` exactly when the
response object does. -/
def _status_success (d : PyVal) : Bool × Option PyVal :=
  match d.lookupStr ("status") with
  | some st =>
      match st.lookupStr ("success") with
      | some b => (b.truthy, st.lookupStr ("details"))
      | Option.none => (true, Option.none)
  | Option.none => (true, Option.none)

/-- The `nodes`/`edges` summary dict with both entries `None`. -/
def emptySummary : PyVal :=
  sdict [(("nodes" : String), .none), (("edges" : String), .none)]

/-- Models `_count_nodes_edges` (lines 781-799). -/
def _count_nodes_edges (d : PyVal) : PyVal :=
  match d with
  | .dict _ =>
      let nodes0 : Option Nat :=
        match d.lookupStr ("nodes") with
        | some (.list xs) => some xs.length
        | _ => Option.none
      let edges0 : Option Nat :=
        match d.lookupStr ("edges") with
        | some (.list xs) => some xs.length
        | _ => Option.none
      let graphNodes : Option Nat :=
        match d.lookupStr ("graph") with
        | some (.dict g) =>
            match lookupKey g (.str ("nodes")) with
            | some (.list xs) => some xs.length
            | _ => Option.none
        | _ => Option.none
      let graphEdges : Option Nat :=
        match d.lookupStr ("graph") with
        | some (.dict g) =>
            match lookupKey g (.str ("edges")) with
            | some (.list xs) => some xs.length
            | _ => Option.none
        | _ => Option.none
      sdict [(("nodes" : String), optNatVal (nodes0 <|> graphNodes)),
             (("edges" : String), optNatVal (edges0 <|> graphEdges))]
  | _ => emptySummary

/-- Models `explore_upstream` (lines 802-825). -/
def explore_upstream (env : ServerEnv) (starting_id : String) (depth : Int) :
    PyVal × List String :=
  match require_authentication env with
  | Option.none => (authRequired, [])
  | some _ =>
      if env.sdk.prov_api_available = false then
        (errDict ("ProvenaClient.prov not available"), [])
      else
        match env.sdk.explore_upstream starting_id depth with
        | .error e => (errDict e, [("prov_api.explore_upstream" : String)])
        | .ok data =>
            let ss := _status_success data
            let summary :=
              if data.isDict then _count_nodes_edges (pyOr data (.dict [])) else emptySummary
            if ss.1 = false then
              (statusDict ("error")
                 [(("message" : String), pyOr ((ss.2).getD .none) (.str ("Unknown error"))),
                  (("starting_id" : String), .str starting_id),
                  (("depth" : String), .int depth)],
               [("prov_api.explore_upstream" : String)])
            else
              (statusDict ("success")
                 [(("starting_id" : String), .str starting_id),
                  (("depth" : String), .int depth),
                  (("summary" : String), summary),
                  (("lineage" : String), data)],
               [("prov_api.explore_upstream" : String)])

/-- Models `explore_downstream` (lines 828-851). -/
def explore_downstream (env : ServerEnv) (starting_id : String) (depth : Int) :
    PyVal × List String :=
  match require_authentication env with
  | Option.none => (authRequired, [])
  | some _ =>
      if env.sdk.prov_api_available = false then
        (errDict ("ProvenaClient.prov not available"), [])
      else
        match env.sdk.explore_downstream starting_id depth with
        | .error e => (errDict e, [("prov_api.explore_downstream" : String)])
        | .ok data =>
            let ss := _status_success data
            let summary :=
              if data.isDict then _count_nodes_edges (pyOr data (.dict [])) else emptySummary
            if ss.1 = false then
              (statusDict ("error")
                 [(("message" : String), pyOr ((ss.2).getD .none) (.str ("Unknown error"))),
                  (("starting_id" : String), .str starting_id),
                  (("depth" : String), .int depth)],
               [("prov_api.explore_downstream" : String)])
            else
              (statusDict ("success")
                 [(("starting_id" : String), .str starting_id),
                  (("depth" : String), .int depth),
                  (("summary" : String), summary),
                  (("lineage" : String), data)],
               [("prov_api.explore_downstream" : String)])

/-- An optional string interpolated into an f-string (`None` prints as
`None`). -/
def optStrRepr : Option String → String
  | some s => s
  | Option.none => ("None")

/-- Models `summary.get("nodes", 0) or 0` after `_count_nodes_edges(data or ...)`
(research_entity lines 955-956 and 975-976). -/
def nodesCountOf (data : PyVal) : Int :=
  match (_count_nodes_edges (pyOr data (.dict []))).lookupStr ("nodes") with
  | some (.int n) => n
  | _ => 0

/-- Models `entity_types_count[subtype] = entity_types_count.get(subtype, 0) + 1`
on an insertion-ordered dict with arbitrary-value keys. -/
def bumpCount : List (PyVal × Int) → PyVal → List (PyVal × Int)
  | [], k => [(k, 1)]
  | (k0, n) :: rest, k =>
      if PyVal.beq k0 k then (k0, n + 1) :: rest else (k0, n) :: bumpCount rest k

/-- Models `entity_types_count.get(k, 0)`. -/
def countOf (counts : List (PyVal × Int)) (k : PyVal) : Int :=
  match counts.find? (fun kv => PyVal.beq kv.1 k) with
  | some kv => kv.2
  | Option.none => 0

/-- Node-id collection from one lineage component (research_entity lines
1036-1043): only performed when the component is present and a dict, its
`graph` entry is a dict and contains `nodes`; dict nodes with an `id` are
added to the set.  Iterating a non-list, non-str, non-dict `nodes` value
raises a `TypeError` that escapes to the top-level handler; iterating a
str or dict yields chars / keys, which are never dicts, so nothing is
collected from them. -/
def collectNodeIds (acc : List PyVal) (comp : Option PyVal) : Except String (List PyVal) :=
  match comp with
  | Option.none => .ok acc
  | some v =>
      if v.isDict = false then .ok acc
      else
        let graph_data := v.getStrD ("graph") (.dict [])
        if graph_data.isDict = false then .ok acc
        else
          match graph_data.lookupStr ("nodes") with
          | Option.none => .ok acc
          | some (.list xs) =>
              .ok (xs.foldl (fun a node =>
                    if node.isDict && (node.lookupStr ("id")).isSome then
                      pyInsert a ((node.lookupStr ("id")).getD .none)
                    else a) acc)
          | some (.str _) => .ok acc
          | some (.dict _) => .ok acc
          | some _ => .error ("TypeError: object is not iterable")

/-- Accumulator of the related-entity fetch loop (research_entity lines
1051-1069): the `related_entities` dict, the `entity_types_count` dict and
the SDK trace. -/
structure RelatedAcc where
  related : List (PyVal × PyVal)
  counts : List (PyVal × Int)
  trace : List String

/-- One iteration of the related-entity fetch loop (research_entity lines
1057-1069): the id is fetched; exceptions and failures skip it; a
successful fetch stores the dumped item and bumps the per-subtype count.
A `None` item is stored before the subsequent `.get` raises, so it is
kept but not counted. -/
def fetchRelatedStep (env : ServerEnv) (acc : RelatedAcc) (rid : PyVal) : RelatedAcc :=
  match env.sdk.general_fetch_item rid with
  | .error _ =>
      { acc with trace := acc.trace ++ [("registry.general_fetch_item" : String)] }
  | .ok fr =>
      if fr.success then
        match fr.item with
        | some kvs =>
            { related := acc.related ++ [(rid, .dict kvs)],
              counts := bumpCount acc.counts
                ((PyVal.dict kvs).getStrD ("item_subtype") (.str ("UNKNOWN"))),
              trace := acc.trace ++ [("registry.general_fetch_item" : String)] }
        | Option.none =>
            { acc with
              related := acc.related ++ [(rid, PyVal.none)],
              trace := acc.trace ++ [("registry.general_fetch_item" : String)] }
      else
        { acc with trace := acc.trace ++ [("registry.general_fetch_item" : String)] }

/-- The related-entity fetch loop over the capped id list. -/
def fetchRelatedLoop (env : ServerEnv) (ids : List PyVal) : RelatedAcc :=
  ids.foldl (fetchRelatedStep env) { related := [], counts := [], trace := [] }

/-- The top-level error dict of `research_entity`. -/
def researchErr (msg : String) (entity_id : String) : PyVal :=
  statusDict ("error")
    [(("message" : String), .str msg), (("entity_id" : String), .str entity_id)]

/-- Models `research_entity` (lines 854-1121). -/
def research_entity (env : ServerEnv) (entity_id : String) (max_depth : Int)
    (include_upstream include_downstream include_related_agents : Bool) :
    PyVal × List String :=
  match require_authentication env with
  | Option.none => (authRequired, [])
  | some _ =>
      let prov := env.sdk.prov_api_available
      match env.sdk.general_fetch_item (.str entity_id) with
      | .error e => (researchErr e entity_id, [("registry.general_fetch_item" : String)])
      | .ok fr =>
          if fr.success = false then
            (researchErr (("Failed to fetch entity: ") ++ optStrRepr fr.details) entity_id,
             [("registry.general_fetch_item" : String)])
          else
            match fr.item with
            | Option.none =>
                -- `_dump(result.item)` is `None`: the following `.get`
                -- raises, absorbed by the top-level handler.
                (researchErr ("AttributeError: NoneType object has no attribute get") entity_id,
                 [("registry.general_fetch_item" : String)])
            | some rootKvs =>
                let root_entity := PyVal.dict rootKvs
                let entity_subtype := root_entity.getStrD ("item_subtype") (.str ("UNKNOWN"))
                let entity_category := root_entity.getStrD ("item_category") (.str ("UNKNOWN"))
                -- Step 2: upstream lineage
                let upstreamPart : Option PyVal × Int × List String :=
                  if include_upstream && prov then
                    match env.sdk.explore_upstream entity_id max_depth with
                    | .ok d => (some d, nodesCountOf d, [("prov_api.explore_upstream" : String)])
                    | .error e =>
                        (some (sdict [(("error" : String), .str e)]), 0,
                         [("prov_api.explore_upstream" : String)])
                  else (Option.none, 0, [])
                -- Step 3: downstream lineage
                let downstreamPart : Option PyVal × Int × List String :=
                  if include_downstream && prov then
                    match env.sdk.explore_downstream entity_id max_depth with
                    | .ok d => (some d, nodesCountOf d, [("prov_api.explore_downstream" : String)])
                    | .error e =>
                        (some (sdict [(("error" : String), .str e)]), 0,
                         [("prov_api.explore_downstream" : String)])
                  else (Option.none, 0, [])
                -- Step 4: specialized lineage for datasets / model runs
                let specialized :=
                  (entity_subtype.isStrEq ("DATASET") || entity_subtype.isStrEq ("MODEL_RUN")) && prov
                let contribDS : Option PyVal × List String :=
                  if specialized then
                    match env.sdk.get_contributing_datasets entity_id max_depth with
                    | .ok d => (some d, [("prov_api.get_contributing_datasets" : String)])
                    | .error _ => (Option.none, [("prov_api.get_contributing_datasets" : String)])
                  else (Option.none, [])
                let effDS : Option PyVal × List String :=
                  if specialized then
                    match env.sdk.get_effected_datasets entity_id max_depth with
                    | .ok d => (some d, [("prov_api.get_effected_datasets" : String)])
                    | .error _ => (Option.none, [("prov_api.get_effected_datasets" : String)])
                  else (Option.none, [])
                let contribAg : Option PyVal × List String :=
                  if specialized && include_related_agents then
                    match env.sdk.get_contributing_agents entity_id max_depth with
                    | .ok d => (some d, [("prov_api.get_contributing_agents" : String)])
                    | .error _ => (Option.none, [("prov_api.get_contributing_agents" : String)])
                  else (Option.none, [])
                let effAg : Option PyVal × List String :=
                  if specialized && include_related_agents then
                    match env.sdk.get_effected_agents entity_id max_depth with
                    | .ok d => (some d, [("prov_api.get_effected_agents" : String)])
                    | .error _ => (Option.none, [("prov_api.get_effected_agents" : String)])
                  else (Option.none, [])
                let traceSoFar :=
                  ("registry.general_fetch_item" : String) :: upstreamPart.2.2 ++
                    downstreamPart.2.2 ++ contribDS.2 ++ effDS.2 ++ contribAg.2 ++ effAg.2
                -- Step 5: collect unique node ids from all graph responses
                let collected : Except String (List PyVal) := do
                  let a1 ← collectNodeIds [] upstreamPart.1
                  let a2 ← collectNodeIds a1 downstreamPart.1
                  let a3 ← collectNodeIds a2 contribDS.1
                  let a4 ← collectNodeIds a3 effDS.1
                  let a5 ← collectNodeIds a4 contribAg.1
                  collectNodeIds a5 effAg.1
                match collected with
                | .error e => (researchErr e entity_id, traceSoFar)
                | .ok allIds =>
                    -- `unique_entity_ids.discard(entity_id)`
                    let unique_entity_ids :=
                      allIds.filter (fun v => !PyVal.beq v (.str entity_id))
                    -- Step 6: fetch details, capped at the first 100 ids
                    let acc := fetchRelatedLoop env (unique_entity_ids.take 100)
                    let stats := sdict
                      [(("total_related_entities" : String), .int acc.related.length),
                       (("upstream_entities" : String), .int upstreamPart.2.1),
                       (("downstream_entities" : String), .int downstreamPart.2.1),
                       (("datasets" : String), .int (countOf acc.counts (.str ("DATASET")))),
                       (("model_runs" : String), .int (countOf acc.counts (.str ("MODEL_RUN")))),
                       (("people" : String), .int (countOf acc.counts (.str ("PERSON")))),
                       (("organisations" : String),
                        .int (countOf acc.counts (.str ("ORGANISATION")))),
                       (("models" : String), .int (countOf acc.counts (.str ("MODEL")))),
                       (("templates" : String),
                        .int (countOf acc.counts (.str ("DATASET_TEMPLATE")) +
                              countOf acc.counts (.str ("MODEL_RUN_WORKFLOW_TEMPLATE"))))]
                    -- Step 7: recommendations
                    let recs : List PyVal :=
                      (if upstreamPart.2.1 == 0 && entity_subtype.isStrEq ("DATASET") then
                        [sdict [(("priority" : String), .str ("medium")),
                                (("action" : String), .str ("Investigate data provenance")),
                                (("details" : String),
                                 .str ("This dataset has no recorded upstream lineage. Consider documenting its sources or creation process."))]]
                      else []) ++
                      (if downstreamPart.2.1 == 0 && entity_category.isStrEq ("ACTIVITY") then
                        [sdict [(("priority" : String), .str ("low")),
                                (("action" : String), .str ("Check for outputs")),
                                (("details" : String),
                                 .str ("This activity has no recorded downstream entities. Verify if outputs were registered."))]]
                      else []) ++
                      (if acc.related.length > 50 then
                        [sdict [(("priority" : String), .str ("low")),
                                (("action" : String), .str ("Complex lineage detected")),
                                (("details" : String),
                                 .str ("This entity has many relationships. Consider using visualization tools to understand the full graph."))]]
                      else [])
                    let optionalFields : List (String × Option PyVal) :=
                      [(("upstream_lineage" : String), upstreamPart.1),
                       (("downstream_lineage" : String), downstreamPart.1),
                       (("contributing_datasets" : String), contribDS.1),
                       (("effected_datasets" : String), effDS.1),
                       (("contributing_agents" : String), contribAg.1),
                       (("effected_agents" : String), effAg.1)]
                    let resultKvs : List (PyVal × PyVal) :=
                      [(.str ("status"), .str ("success")),
                       (.str ("entity_id"), .str entity_id),
                       (.str ("entity"), root_entity),
                       (.str ("entity_type"),
                        sdict [(("category" : String), entity_category),
                               (("subtype" : String), entity_subtype)]),
                       (.str ("statistics"), stats),
                       (.str ("recommendations"), .list recs)] ++
                      (optionalFields.filterMap (fun kv =>
                        kv.2.map (fun v => (PyVal.str kv.1, v)))) ++
                      [(.str ("related_entities"), .dict acc.related)]
                    (.dict resultKvs, traceSoFar ++ acc.trace)

/-- Set insertion for the `(node_id, relationship)` pairs of
`find_related_entities`. -/
def pyInsertPair (xs : List (PyVal × String)) (x : PyVal × String) : List (PyVal × String) :=
  if xs.any (fun y => PyVal.beq y.1 x.1 && y.2 == x.2) then xs else xs ++ [x]

/-- Node-id collection of `find_related_entities` (lines 1200-1222; note:
unlike `research_entity` this version has no `isinstance` guards, so a
non-dict graph / node aborts the guarded block via a caught exception,
keeping the ids added before the abort; a missing or non-iterable `nodes`
contributes nothing). -/
def collectRelIds (entity_id : String) (rel : String) (data : PyVal)
    (acc : List (PyVal × String)) : List (PyVal × String) :=
  if data.isDict = false then acc
  else
    let graph := data.getStrD ("graph") (.dict [])
    if graph.isDict = false then acc
    else
      match graph.lookupStr ("nodes") with
      | some (.list xs) =>
          (xs.foldl (fun (st : List (PyVal × String) × Bool) node =>
              if st.2 then st
              else if node.isDict = false then (st.1, true)
              else
                let node_id := (node.lookupStr ("id")).getD .none
                if node_id.truthy && !PyVal.beq node_id (.str entity_id) then
                  (pyInsertPair st.1 (node_id, rel), false)
                else (st.1, false))
            (acc, false)).1
      | _ => acc

/-- The explicit creator fields probed on templates (lines 1284-1287). -/
def creator_fields : List String :=
  [("created_by" : String), ("creator" : String), ("creator_id" : String),
   ("created_by_id" : String), ("owner_id" : String), ("record_creator" : String),
   ("record_creator_organisation" : String)]

/-- Association scan of one listed item (lines 1243-1334), returning the
`created_by` pairs it adds, in order; a raised `.get` on a non-dict value
aborts the rest of the item but keeps the pairs already added (per-item
`except ... continue`). -/
def scanItemForCreatedBy (entity_id : String) (root_subtype : PyVal) (item_id : PyVal)
    (item_data : PyVal) : List (PyVal × String) :=
  let personPart : List (PyVal × String) × Bool :=
    if root_subtype.isStrEq ("PERSON") then
      let associations := item_data.getStrD ("associations") (.dict [])
      if associations.isDict = false then ([], true)
      else
        let a1 :=
          if (associations.getStrD ("modeller_id") .none).isStrEq entity_id
             || (associations.getStrD ("data_custodian_id") .none).isStrEq entity_id then
            [(item_id, ("created_by" : String))]
          else []
        let cf := item_data.getStrD ("collection_format") (.dict [])
        if cf.truthy then
          if cf.isDict = false then (a1, true)
          else
            let cf_assoc := cf.getStrD ("associations") (.dict [])
            if cf_assoc.isDict = false then (a1, true)
            else
              ((a1 ++
                if (cf_assoc.getStrD ("data_custodian_id") .none).isStrEq entity_id
                   || (cf_assoc.getStrD ("point_of_contact") .none).isStrEq entity_id then
                  [(item_id, ("created_by" : String))]
                else []), false)
        else (a1, false)
    else ([], false)
  if personPart.2 then personPart.1
  else
    let item_subtype := item_data.getStrD ("item_subtype") (.str (""))
    if item_subtype.isStrEq ("DATASET_TEMPLATE")
       || item_subtype.isStrEq ("MODEL_RUN_WORKFLOW_TEMPLATE") then
      let a3 :=
        if creator_fields.any (fun f => (item_data.getStrD f .none).isStrEq entity_id) then
          [(item_id, ("created_by" : String))]
        else []
      let tpl_assoc := item_data.getStrD ("associations") (.dict [])
      let a4 :=
        match tpl_assoc with
        | .dict kvs =>
            if kvs.any (fun kv => kv.2.isStrEq entity_id) then
              [(item_id, ("created_by" : String))]
            else []
        | _ => []
      let um := pyOr (item_data.getStrD ("user_metadata") .none) (.dict [])
      let a5 :=
        match um with
        | .dict kvs =>
            if kvs.any (fun kv => kv.2.isStrEq entity_id) then
              [(item_id, ("created_by" : String))]
            else []
        | _ => []
      personPart.1 ++ a3 ++ a4 ++ a5
    else if root_subtype.isStrEq ("ORGANISATION") then
      let associations := item_data.getStrD ("associations") (.dict [])
      if associations.isDict = false then personPart.1
      else
        let b1 :=
          if (associations.getStrD ("organisation_id") .none).isStrEq entity_id
             || (associations.getStrD ("requesting_organisation_id") .none).isStrEq entity_id then
            [(item_id, ("created_by" : String))]
          else []
        let cf := item_data.getStrD ("collection_format") (.dict [])
        if cf.truthy then
          if cf.isDict = false then personPart.1 ++ b1
          else
            let ds_info := cf.getStrD ("dataset_info") (.dict [])
            if ds_info.isDict = false then personPart.1 ++ b1
            else
              let b2 :=
                if (ds_info.getStrD ("publisher_id") .none).isStrEq entity_id then
                  [(item_id, ("created_by" : String))]
                else []
              let cf_assoc := cf.getStrD ("associations") (.dict [])
              if cf_assoc.isDict = false then personPart.1 ++ b1 ++ b2
              else
                personPart.1 ++ b1 ++ b2 ++
                  (if (cf_assoc.getStrD ("organisation_id") .none).isStrEq entity_id then
                    [(item_id, ("created_by" : String))]
                  else [])
        else personPart.1 ++ b1
    else personPart.1

/-- The scan over the first 200 listed items (lines 1241-1334): per item,
resolve its id (attribute or key, both modelled as the dumped `id` entry),
skip falsy ids, fetch the full item and scan its associations; exceptions
and failures skip the item. -/
def createdByScanLoop (env : ServerEnv) (entity_id : String) (root_subtype : PyVal)
    (items : List PyVal) : List (PyVal × String) × List String :=
  items.foldl (fun acc item =>
    let idv := (item.lookupStr ("id")).getD .none
    if idv.truthy = false then acc
    else
      match env.sdk.general_fetch_item idv with
      | .error _ => (acc.1, acc.2 ++ [("registry.general_fetch_item" : String)])
      | .ok full =>
          if full.success = false then
            (acc.1, acc.2 ++ [("registry.general_fetch_item" : String)])
          else
            match full.item with
            | Option.none =>
                -- `_dump` gives None; the first `.get` raises, item skipped
                (acc.1, acc.2 ++ [("registry.general_fetch_item" : String)])
            | some kvs =>
                let adds := scanItemForCreatedBy entity_id root_subtype idv (.dict kvs)
                (adds.foldl pyInsertPair acc.1,
                 acc.2 ++ [("registry.general_fetch_item" : String)]))
    ([], [])

/-- The minimal-summary fetch over the collected `(id, relationship)` pairs
(lines 1339-1363). -/
def minimalFetchLoop (env : ServerEnv) (type_filter : List String)
    (pairs : List (PyVal × String)) : List PyVal × List String :=
  pairs.foldl (fun acc pr =>
    match env.sdk.general_fetch_item pr.1 with
    | .error _ => (acc.1, acc.2 ++ [("registry.general_fetch_item" : String)])
    | .ok fr =>
        if fr.success then
          match fr.item with
          | some kvs =>
              let entity := PyVal.dict kvs
              let entity_subtype := entity.getStrD ("item_subtype") (.str ("UNKNOWN"))
              if type_filter.isEmpty = false
                 && (type_filter.any (fun t => entity_subtype.isStrEq t)) = false then
                (acc.1, acc.2 ++ [("registry.general_fetch_item" : String)])
              else
                (acc.1 ++
                  [sdict [(("id" : String), pr.1),
                          (("handle_url" : String),
                           .str (("https://hdl.handle.net/") ++ pyStrOf pr.1)),
                          (("display_name" : String),
                           entity.getStrD ("display_name") (.str ("N/A"))),
                          (("type" : String), entity_subtype),
                          (("relationship" : String), .str pr.2),
                          (("created_timestamp" : String),
                           entity.getStrD ("created_timestamp") .none)]],
                 acc.2 ++ [("registry.general_fetch_item" : String)])
          | Option.none =>
              (acc.1, acc.2 ++ [("registry.general_fetch_item" : String)])
        else (acc.1, acc.2 ++ [("registry.general_fetch_item" : String)]))
    ([], [])

/-- Models `grouped[rel].append(entity)`, creating the list on first use. -/
def groupAppend (g : PyVal) (k : PyVal) (e : PyVal) : PyVal :=
  match g with
  | .dict kvs =>
      match lookupKey kvs k with
      | some (.list xs) => .dict (setPairs kvs k (.list (xs ++ [e])))
      | _ => .dict (kvs ++ [(k, .list [e])])
  | other => other

/-- Set insertion for strings. -/
def strInsert (xs : List String) (x : String) : List String :=
  if xs.contains x then xs else xs ++ [x]

/-- Models `find_related_entities` (lines 1140-1388). -/
def find_related_entities (env : ServerEnv) (entity_id : String)
    (relationship_type : String) (entity_types : Option String) : PyVal × List String :=
  match require_authentication env with
  | Option.none => (authRequired, [])
  | some _ =>
      let prov := env.sdk.prov_api_available
      match env.sdk.general_fetch_item (.str entity_id) with
      | .error e => (errDict e, [("registry.general_fetch_item" : String)])
      | .ok fr =>
          if fr.success = false then
            (errDict (("Failed to fetch entity: ") ++ optStrRepr fr.details),
             [("registry.general_fetch_item" : String)])
          else
            match fr.item with
            | Option.none =>
                (errDict ("AttributeError: NoneType object has no attribute get"),
                 [("registry.general_fetch_item" : String)])
            | some rootKvs =>
                let root_entity := PyVal.dict rootKvs
                let root_subtype := root_entity.getStrD ("item_subtype") (.str ("UNKNOWN"))
                let type_filter : List String :=
                  match entity_types with
                  | some s =>
                      if s.data.isEmpty then []
                      else (pySplitOnComma s).foldl
                        (fun acc t => strInsert acc (pyUpper (pyTrim t))) []
                  | Option.none => []
                -- upstream / downstream id collection (depth 2)
                let upPart : List (PyVal × String) × List String :=
                  if (relationship_type == "all" || relationship_type == "upstream") && prov then
                    match env.sdk.explore_upstream entity_id 2 with
                    | .ok d =>
                        (collectRelIds entity_id ("upstream") d [],
                         [("prov_api.explore_upstream" : String)])
                    | .error _ => ([], [("prov_api.explore_upstream" : String)])
                  else ([], [])
                let downPart : List (PyVal × String) × List String :=
                  if (relationship_type == "all" || relationship_type == "downstream") && prov then
                    match env.sdk.explore_downstream entity_id 2 with
                    | .ok d =>
                        (collectRelIds entity_id ("downstream") d upPart.1,
                         [("prov_api.explore_downstream" : String)])
                    | .error _ => (upPart.1, [("prov_api.explore_downstream" : String)])
                  else (upPart.1, [])
                let traceGraphs :=
                  ("registry.general_fetch_item" : String) :: upPart.2 ++ downPart.2
                -- `created_by` is only valid for PERSON / ORGANISATION roots
                if relationship_type == "created_by"
                   && !(root_subtype.isStrEq ("PERSON")
                        || root_subtype.isStrEq ("ORGANISATION")) then
                  (errDict (("created_by relationship type is only valid for PERSON or ORGANISATION entities. Entity ")
                      ++ entity_id ++ (" is of type ") ++ pyStrOf root_subtype
                      ++ (". For ") ++ pyStrOf root_subtype
                      ++ (" entities, try used_by, upstream, or downstream instead.")),
                   traceGraphs)
                else
                  -- PERSON / ORGANISATION: scan the first 200 listed items
                  let scanPart : Except (String × List String)
                      (List (PyVal × String) × List String) :=
                    if (relationship_type == "all" || relationship_type == "created_by")
                       && (root_subtype.isStrEq ("PERSON")
                           || root_subtype.isStrEq ("ORGANISATION")) then
                      match env.sdk.list_general_registry_items with
                      | .error e =>
                          -- not locally guarded: escapes to the outer handler
                          .error (e,
                            traceGraphs ++ [("registry.list_general_registry_items" : String)])
                      | .ok lr =>
                          if lr.success then
                            let scan := createdByScanLoop env entity_id root_subtype
                              (lr.items.take 200)
                            .ok (downPart.1.append (scan.1.filter (fun p =>
                                   !(downPart.1.any (fun q =>
                                      PyVal.beq q.1 p.1 && q.2 == p.2)))),
                                 ("registry.list_general_registry_items" : String) :: scan.2)
                          else
                            .ok (downPart.1,
                                 [("registry.list_general_registry_items" : String)])
                    else .ok (downPart.1, [])
                  match scanPart with
                  | .error r => (errDict r.1, r.2)
                  | .ok scanned =>
                      let entity_ids := scanned.1
                      let fetched := minimalFetchLoop env type_filter entity_ids
                      let related_entities := fetched.1
                      let grouped := related_entities.foldl
                        (fun g e => groupAppend g (e.getStrD ("relationship") .none) e)
                        (PyVal.dict [])
                      (statusDict ("success")
                         [(("entity_id" : String), .str entity_id),
                          (("root_entity_type" : String), root_subtype),
                          (("relationship_type" : String), .str relationship_type),
                          (("type_filter" : String),
                           if type_filter.isEmpty then .none
                           else .list (type_filter.map (fun t => .str t))),
                          (("total_count" : String), .int related_entities.length),
                          (("grouped_by_relationship" : String), grouped),
                          (("all_entities" : String), .list related_entities)],
                       traceGraphs ++ scanned.2 ++ fetched.2)

/-!  ### Creation tools

Payload construction (pydantic domain-info objects) is external validation,
modelled by the `build_*` oracles; only the pre-parsing the source performs
itself and the response shaping are translated.  Quote characters that
f-strings place around interpolated names are omitted from the message
texts; no proved property reads them. -/

/-- Models `create_model` (lines 1392-1474).  Parameters that only flow into the
opaque payload are not repeated here. -/
def create_model (env : ServerEnv) (name : String) (user_metadata : Option String) :
    PyVal × List String :=
  match require_authentication env with
  | Option.none => (authRequired, [])
  | some _ =>
      let parsed : Except String Unit :=
        match user_metadata with
        | some s =>
            if s.data.isEmpty then .ok ()
            else
              match env.json_loads s with
              | .ok _ => .ok ()
              | .error e => .error (("Invalid JSON in user_metadata: ") ++ e)
        | Option.none => .ok ()
      match parsed with
      | .error m => (errDict m, [])
      | .ok _ =>
          match env.build_model_info with
          | .error e => (errDict e, [])
          | .ok _ =>
              match env.sdk.model_create_item with
              | .error e => (errDict e, [("registry.model.create_item" : String)])
              | .ok result =>
                  if result.success = false then
                    (errDictV (optStrVal result.details),
                     [("registry.model.create_item" : String)])
                  else
                    (statusDict ("success")
                       [(("model_id" : String), optStrVal result.created_item),
                        (("handle_url" : String),
                         match result.created_item with
                         | some i => .str (("https://hdl.handle.net/") ++ i)
                         | Option.none => .none),
                        (("message" : String),
                         .str (("Model ") ++ name ++ (" registered successfully")))],
                     [("registry.model.create_item" : String)])

/-- The valid `ResourceUsageType` values of the external enum. -/
def usage_types : List String :=
  [("GENERAL_DATA" : String), ("CONFIG_FILE" : String), ("FORCING_DATA" : String),
   ("PARAMETER_FILE" : String)]

/-- Exceptions of the resource/template parsing loops: `handled` covers
`JSONDecodeError` / `KeyError` / `ValueError` (caught locally with a
format message), `unhandled` anything else (escapes to the outer
handler). -/
inductive ResErr where
  | handled (msg : String)
  | unhandled (msg : String)
deriving Repr

/-- The per-element checks of the defined/deferred resource loops
(lines 1536-1566): the required key and `description` must be present
(`KeyError`) and the usage type must be valid (`ValueError`, which also
covers pydantic validation); non-dict elements raise an uncaught
`TypeError`. -/
def checkResources (parsed : PyVal) (requiredKey : String) : Except ResErr Unit :=
  match parsed with
  | .list xs =>
      xs.foldlM (fun _ res =>
        match res with
        | .dict _ =>
            if (res.lookupStr requiredKey).isSome = false then
              .error (.handled requiredKey)
            else if (res.lookupStr ("description")).isSome = false then
              .error (.handled ("description"))
            else
              match res.getStrD ("usage_type") (.str ("GENERAL_DATA")) with
              | .str u =>
                  if usage_types.contains u then .ok ()
                  else .error (.handled (u ++ (" is not a valid ResourceUsageType")))
              | _ => .error (.handled ("invalid ResourceUsageType"))
        | _ => .error (.unhandled ("TypeError: element is not subscriptable")))
        ()
  | .str s =>
      if s.data.isEmpty then .ok ()
      else .error (.unhandled ("TypeError: string indices must be integers"))
  | .dict kvs =>
      if kvs.isEmpty then .ok ()
      else .error (.unhandled ("TypeError: string indices must be integers"))
  | _ => .error (.unhandled ("TypeError: object is not iterable"))

/-- One optional resource-array argument of `create_dataset_template`:
parse, then check each element; local failures get the format prefix. -/
def parseResourcesArg (env : ServerEnv) (arg : Option String) (requiredKey : String)
    (errPrefix : String) : Except String Unit :=
  match arg with
  | some s =>
      if s.data.isEmpty then .ok ()
      else
        match env.json_loads s with
        | .error e => .error (errPrefix ++ e)
        | .ok parsed =>
            match checkResources parsed requiredKey with
            | .ok _ => .ok ()
            | .error (.handled m) => .error (errPrefix ++ m)
            | .error (.unhandled m) => .error m
  | Option.none => .ok ()

/-- Models `create_dataset_template` (lines 1476-1604). -/
def create_dataset_template (env : ServerEnv) (display_name : String)
    (defined_resources deferred_resources user_metadata : Option String) :
    PyVal × List String :=
  match require_authentication env with
  | Option.none => (authRequired, [])
  | some _ =>
      match parseResourcesArg env defined_resources ("path")
              ("Invalid defined_resources format: ") with
      | .error m => (errDict m, [])
      | .ok _ =>
      match parseResourcesArg env deferred_resources ("key")
              ("Invalid deferred_resources format: ") with
      | .error m => (errDict m, [])
      | .ok _ =>
      let metaParsed : Except String Unit :=
        match user_metadata with
        | some s =>
            if s.data.isEmpty then .ok ()
            else
              match env.json_loads s with
              | .ok _ => .ok ()
              | .error e => .error (("Invalid JSON in user_metadata: ") ++ e)
        | Option.none => .ok ()
      match metaParsed with
      | .error m => (errDict m, [])
      | .ok _ =>
          match env.build_dataset_template_info with
          | .error e => (errDict e, [])
          | .ok _ =>
              match env.sdk.dataset_template_create_item with
              | .error e => (errDict e, [("registry.dataset_template.create_item" : String)])
              | .ok result =>
                  if result.success = false then
                    (errDictV (optStrVal result.details),
                     [("registry.dataset_template.create_item" : String)])
                  else
                    (statusDict ("success")
                       [(("template_id" : String), optStrVal result.created_item),
                        (("handle_url" : String),
                         match result.created_item with
                         | some i => .str (("https://hdl.handle.net/") ++ i)
                         | Option.none => .none),
                        (("message" : String),
                         .str (("Dataset template ") ++ display_name
                               ++ (" registered successfully")))],
                     [("registry.dataset_template.create_item" : String)])

/-- The per-element check of the input/output template loops of
`create_model_run_workflow_template` (lines 1659-1682): `template_id`
must be present (`KeyError`); non-dict elements raise uncaught.  Returns
the number of parsed templates. -/
def checkTemplates (parsed : PyVal) : Except ResErr Nat :=
  match parsed with
  | .list xs =>
      xs.foldlM (fun n t =>
        match t with
        | .dict _ =>
            if (t.lookupStr ("template_id")).isSome then .ok (n + 1)
            else .error (.handled ("template_id"))
        | _ => .error (.unhandled ("TypeError: element is not subscriptable")))
        0
  | .str s =>
      if s.data.isEmpty then .ok 0
      else .error (.unhandled ("TypeError: string indices must be integers"))
  | .dict kvs =>
      if kvs.isEmpty then .ok 0
      else .error (.unhandled ("TypeError: string indices must be integers"))
  | _ => .error (.unhandled ("TypeError: object is not iterable"))

/-- One optional template-array argument. -/
def parseTemplatesArg (env : ServerEnv) (arg : Option String) (errPrefix : String) :
    Except String Nat :=
  match arg with
  | some s =>
      if s.data.isEmpty then .ok 0
      else
        match env.json_loads s with
        | .error e => .error (errPrefix ++ e)
        | .ok parsed =>
            match checkTemplates parsed with
            | .ok n => .ok n
            | .error (.handled m) => .error (errPrefix ++ m)
            | .error (.unhandled m) => .error m
  | Option.none => .ok 0

/-- Models `[k.strip() for k in s.split(",") if k.strip()]`. -/
def splitNonempty (s : String) : List String :=
  ((pySplitOnComma s).map pyTrim).filter (fun t => !t.data.isEmpty)

/-- Models `create_model_run_workflow_template` (lines 1606-1746). -/
def create_model_run_workflow_template (env : ServerEnv) (display_name model_id : String)
    (input_template_ids output_template_ids required_annotations optional_annotations
     user_metadata : Option String) : PyVal × List String :=
  match require_authentication env with
  | Option.none => (authRequired, [])
  | some _ =>
      match parseTemplatesArg env input_template_ids ("Invalid input_template_ids format: ") with
      | .error m => (errDict m, [])
      | .ok inCount =>
      match parseTemplatesArg env output_template_ids ("Invalid output_template_ids format: ") with
      | .error m => (errDict m, [])
      | .ok outCount =>
      let reqL := match required_annotations with
        | some s => if s.data.isEmpty then ([] : List String) else splitNonempty s
        | Option.none => []
      let optL := match optional_annotations with
        | some s => if s.data.isEmpty then ([] : List String) else splitNonempty s
        | Option.none => []
      let has_annotations := !reqL.isEmpty || !optL.isEmpty
      let metaParsed : Except String Unit :=
        match user_metadata with
        | some s =>
            if s.data.isEmpty then .ok ()
            else
              match env.json_loads s with
              | .ok _ => .ok ()
              | .error e => .error (("Invalid JSON in user_metadata: ") ++ e)
        | Option.none => .ok ()
      match metaParsed with
      | .error m => (errDict m, [])
      | .ok _ =>
          match env.build_workflow_template_info with
          | .error e => (errDict e, [])
          | .ok _ =>
              match env.sdk.model_run_workflow_create_item with
              | .error e =>
                  (errDict e, [("registry.model_run_workflow.create_item" : String)])
              | .ok result =>
                  if result.success = false then
                    (errDictV (optStrVal result.details),
                     [("registry.model_run_workflow.create_item" : String)])
                  else
                    (statusDict ("success")
                       [(("workflow_template_id" : String), optStrVal result.created_item),
                        (("handle_url" : String),
                         match result.created_item with
                         | some i => .str (("https://hdl.handle.net/") ++ i)
                         | Option.none => .none),
                        (("message" : String),
                         .str (("Model run workflow template ") ++ display_name
                               ++ (" registered successfully"))),
                        (("summary" : String),
                         sdict [(("display_name" : String), .str display_name),
                                (("model_id" : String), .str model_id),
                                (("input_templates_count" : String), .int inCount),
                                (("output_templates_count" : String), .int outCount),
                                (("has_annotations" : String), .bool has_annotations)])],
                     [("registry.model_run_workflow.create_item" : String)])

/-- Models `create_dataset` (lines 1748-2010).  All field massaging flows into the
opaque `CollectionFormat` payload (`build_collection_format`); an invalid
`user_metadata` JSON only warns and skips, it is not an error path. -/
def create_dataset (env : ServerEnv) (name : String) : PyVal × List String :=
  match require_authentication env with
  | Option.none => (authRequired, [])
  | some _ =>
      match env.build_collection_format with
      | .error e => (errDict e, [])
      | .ok _ =>
          match env.sdk.mint_dataset with
          | .error e => (errDict e, [("datastore.mint_dataset" : String)])
          | .ok result =>
              if result.success = false then
                (errDictV (optStrVal result.details), [("datastore.mint_dataset" : String)])
              else
                (statusDict ("success")
                   [(("dataset_id" : String), .str result.handle),
                    (("message" : String),
                     .str (("Dataset ") ++ name ++ (" registered successfully"))),
                    (("handle_url" : String),
                     .str (("https://hdl.handle.net/") ++ result.handle))],
                 [("datastore.mint_dataset" : String)])

/-- Models `ve.errors()` reshaped by `create_person` (line 2100). -/
def personValidationDetails : PyVal → PyVal
  | .list errs => .list (errs.map (fun err =>
      sdict [(("field" : String), err.getStrD ("loc") .none),
             (("message" : String), err.getStrD ("msg") .none)]))
  | v => v

/-- Models `create_person` (lines 2011-2104).  Note the success path reads
`result.created_item.id` without a guard: an absent created item raises,
absorbed by the generic handler. -/
def create_person (env : ServerEnv) (first_name last_name : String)
    (display_name : Option String) : PyVal × List String :=
  match require_authentication env with
  | Option.none => (authRequired, [])
  | some _ =>
      let final_display_name :=
        match display_name with
        | some d =>
            if d.data.isEmpty then pyTrim first_name ++ (" ") ++ pyTrim last_name else d
        | Option.none => pyTrim first_name ++ (" ") ++ pyTrim last_name
      match env.build_person_info with
      | .error (.validation errs) =>
          (statusDict ("error")
             [(("message" : String), .str ("Validation failed")),
              (("details" : String), personValidationDetails errs)], [])
      | .error (.generic e) => (errDict e, [])
      | .ok _ =>
          match env.sdk.person_create_item with
          | .error (.validation errs) =>
              (statusDict ("error")
                 [(("message" : String), .str ("Validation failed")),
                  (("details" : String), personValidationDetails errs)],
               [("registry.person.create_item" : String)])
          | .error (.generic e) => (errDict e, [("registry.person.create_item" : String)])
          | .ok result =>
              if result.success = false then
                (errDictV (optStrVal result.details),
                 [("registry.person.create_item" : String)])
              else
                match result.created_item with
                | Option.none =>
                    (errDict ("AttributeError: NoneType object has no attribute id"),
                     [("registry.person.create_item" : String)])
                | some created_id =>
                    (statusDict ("success")
                       [(("person_id" : String), .str created_id),
                        (("message" : String),
                         .str (("Person ") ++ final_display_name
                               ++ (" registered successfully"))),
                        (("handle_url" : String),
                         if created_id.isEmpty then .none
                         else .str (("https://hdl.handle.net/") ++ created_id))],
                     [("registry.person.create_item" : String)])

/-- Models `create_organisation` (lines 2106-2166).  The success path reads
`result.created_item.id` without a guard. -/
def create_organisation (env : ServerEnv) (name : String) (display_name : Option String) :
    PyVal × List String :=
  match require_authentication env with
  | Option.none => (authRequired, [])
  | some _ =>
      let final_display_name :=
        match display_name with
        | some d => if d.data.isEmpty then pyTrim name else pyTrim d
        | Option.none => pyTrim name
      match env.build_organisation_info with
      | .error (.validation errs) =>
          (statusDict ("error")
             [(("message" : String), .str ("Validation failed")),
              (("details" : String), errs)], [])
      | .error (.generic e) => (errDict e, [])
      | .ok _ =>
          match env.sdk.organisation_create_item with
          | .error (.validation errs) =>
              (statusDict ("error")
                 [(("message" : String), .str ("Validation failed")),
                  (("details" : String), errs)],
               [("registry.organisation.create_item" : String)])
          | .error (.generic e) =>
              (errDict e, [("registry.organisation.create_item" : String)])
          | .ok result =>
              if result.success = false then
                (errDictV (optStrVal result.details),
                 [("registry.organisation.create_item" : String)])
              else
                match result.created_item with
                | Option.none =>
                    (errDict ("AttributeError: NoneType object has no attribute id"),
                     [("registry.organisation.create_item" : String)])
                | some created_id =>
                    (statusDict ("success")
                       [(("organisation_id" : String), .str created_id),
                        (("message" : String),
                         .str (("Organisation ") ++ final_display_name
                               ++ (" registered successfully")))],
                     [("registry.organisation.create_item" : String)])

/-- Python `len(v)` (`TypeError` on non-sized values). -/
def pyLen : PyVal → Except String Nat
  | .list xs => .ok xs.length
  | .str s => .ok s.length
  | .dict kvs => .ok kvs.length
  | _ => .error ("TypeError: object has no len")

/-- The per-dataset template resolution of `create_model_run`
(lines 2311-2338 / 2352-2377): with no templates available an explanatory
error dict is returned; a char / non-dict template object yields the
`Could not extract template_id` error; indexing a dict template container
raises an uncaught `KeyError`. -/
def resolveTemplatedDataset (templates : PyVal) (idx : Nat) (noTplMsg couldNotMsg : String) :
    Except String Unit :=
  match pyLen templates with
  | .error _ => .error ("TypeError: object has no len")
  | .ok n =>
      if templates.truthy = false || n == 0 then
        .error noTplMsg
      else
        match templates with
        | .list xs =>
            let template_obj := if idx < xs.length then xs.getD idx .none else xs.headD .none
            let template_id :=
              pyOr (template_obj.getStrD ("template_id") .none)
                   (template_obj.getStrD ("id") .none)
            if template_id.truthy then .ok ()
            else .error couldNotMsg
        | .str _ =>
            -- indexing a string yields a one-char string: no template_id
            .error couldNotMsg
        | .dict _ =>
            -- `templates[idx]` with an int key: uncaught KeyError
            .error (("KeyError: ") ++ toString idx)
        | _ => .error ("TypeError: object is not subscriptable")

/-- The parse of one datasets argument of `create_model_run`
(lines 2303-2341 / 2344-2380): JSON decode errors and non-array values are
returned as error dicts locally, and uncaught exceptions reach the outer
handler, which produces the same error-dict shape — both are carried here
as the message of the resulting error dict.  Returns the number of parsed
datasets on success. -/
def parseModelRunDatasets (env : ServerEnv) (arg : Option String) (templates : PyVal)
    (invalidMsg mustBeMsg noTplMsg couldNotMsg : String) :
    Except String Nat :=
  match arg with
  | Option.none => .ok 0
  | some s =>
      if s.data.isEmpty then .ok 0
      else
        match env.json_loads s with
        | .error e => .error (invalidMsg ++ e)
        | .ok parsed =>
            match parsed with
            | .list ds =>
                (List.range ds.length).foldlM (fun n idx =>
                    match resolveTemplatedDataset templates idx noTplMsg couldNotMsg with
                    | .ok _ => Except.ok (n + 1)
                    | .error r => Except.error r) 0
            | _ => .error mustBeMsg

/-- Models `create_model_run` (lines 2169-2453). -/
def create_model_run (env : ServerEnv) (workflow_template_id display_name : String)
    (start_time end_time : String)
    (input_datasets output_datasets annotations_arg user_metadata : Option String) :
    PyVal × List String :=
  match require_authentication env with
  | Option.none => (authRequired, [])
  | some _ =>
      -- Step: fetch and inspect the workflow template (inner try)
      let tplStep : Except String (PyVal × PyVal) :=
        match env.sdk.general_fetch_item (.str workflow_template_id) with
        | .error e =>
            .error (("Failed to fetch workflow template: ") ++ e)
        | .ok tr =>
            if tr.success = false then
              .error (("Workflow template ") ++ workflow_template_id
                        ++ (" not found: ") ++ optStrRepr tr.details)
            else
              let template_dict : PyVal :=
                match tr.item with
                | some kvs => .dict kvs
                | Option.none => .dict []
              let input_templates :=
                pyOr (template_dict.getStrD ("input_templates") .none)
                  (pyOr (template_dict.getStrD ("input_template_resources") .none)
                    (pyOr (template_dict.getStrD ("inputs") .none) (.list [])))
              let output_templates :=
                pyOr (template_dict.getStrD ("output_templates") .none)
                  (pyOr (template_dict.getStrD ("output_template_resources") .none)
                    (pyOr (template_dict.getStrD ("outputs") .none) (.list [])))
              -- the logging f-string takes len() of both: TypeError is
              -- caught by this step and reported as a fetch failure
              match pyLen input_templates, pyLen output_templates with
              | .ok _, .ok _ => .ok (input_templates, output_templates)
              | .error e, _ => .error (("Failed to fetch workflow template: ") ++ e)
              | _, .error e => .error (("Failed to fetch workflow template: ") ++ e)
      match tplStep with
      | .error m => (errDict m, [("registry.general_fetch_item" : String)])
      | .ok tpls =>
          -- Step: timestamps
          let timeStep : Except String Unit :=
            match env.parse_iso_timestamp start_time, env.parse_iso_timestamp end_time with
            | .error e, _ =>
                .error (("Invalid timestamp format: ") ++ e
                          ++ (". Use ISO 8601 (YYYY-MM-DDTHH:MM:SSZ)"))
            | _, .error e =>
                .error (("Invalid timestamp format: ") ++ e
                          ++ (". Use ISO 8601 (YYYY-MM-DDTHH:MM:SSZ)"))
            | .ok st, .ok en =>
                if en ≤ st then .error ("end_time must be after start_time")
                else .ok ()
          match timeStep with
          | .error m => (errDict m, [("registry.general_fetch_item" : String)])
          | .ok _ =>
              match parseModelRunDatasets env input_datasets tpls.1
                      ("Invalid input_datasets JSON: ")
                      ("input_datasets must be a JSON array")
                      ("No input template found for dataset. Workflow template must define input templates.")
                      ("Could not extract template_id from input template.") with
              | .error m => (errDict m, [("registry.general_fetch_item" : String)])
              | .ok input_count =>
              match parseModelRunDatasets env output_datasets tpls.2
                      ("Invalid output_datasets JSON: ")
                      ("output_datasets must be a JSON array")
                      ("No output template found for dataset. Workflow template must define output templates.")
                      ("Could not extract template_id from output template.") with
              | .error m => (errDict m, [("registry.general_fetch_item" : String)])
              | .ok output_count =>
              let annStep : Except String Bool :=
                match annotations_arg with
                | Option.none => .ok false
                | some s =>
                    if s.data.isEmpty then .ok false
                    else
                      match env.json_loads s with
                      | .error e => .error (("Invalid annotations JSON: ") ++ e)
                      | .ok v =>
                          if v.isDict then .ok true
                          else .error ("annotations must be a JSON object")
              match annStep with
              | .error m => (errDict m, [("registry.general_fetch_item" : String)])
              | .ok has_annotations =>
              let metaStep : Except String Unit :=
                match user_metadata with
                | Option.none => .ok ()
                | some s =>
                    if s.data.isEmpty then .ok ()
                    else
                      match env.json_loads s with
                      | .error e => .error (("Invalid user_metadata JSON: ") ++ e)
                      | .ok v =>
                          if v.isDict then .ok ()
                          else .error ("user_metadata must be a JSON object")
              match metaStep with
              | .error m => (errDict m, [("registry.general_fetch_item" : String)])
              | .ok _ =>
                  match env.build_model_run_record with
                  | .error e => (errDict e, [("registry.general_fetch_item" : String)])
                  | .ok _ =>
                      match env.sdk.prov_create_model_run with
                      | .error e =>
                          (errDict e,
                           [("registry.general_fetch_item" : String),
                            ("prov_api.create_model_run" : String)])
                      | .ok result =>
                          if result.success = false then
                            (errDictV (optStrVal result.details),
                             [("registry.general_fetch_item" : String),
                              ("prov_api.create_model_run" : String)])
                          else
                            (statusDict ("success")
                               [(("session_id" : String), result.session_id),
                                (("message" : String),
                                 .str (("Model run ") ++ display_name
                                   ++ (" registration initiated successfully. Use the session_id to track progress."))),
                                (("note" : String),
                                 .str ("Model run registration is asynchronous. Check the job status using the session_id.")),
                                (("summary" : String),
                                 sdict [(("display_name" : String), .str display_name),
                                        (("workflow_template_id" : String),
                                         .str workflow_template_id),
                                        (("start_time" : String), .str start_time),
                                        (("end_time" : String), .str end_time),
                                        (("input_count" : String), .int input_count),
                                        (("output_count" : String), .int output_count),
                                        (("has_annotations" : String), .bool has_annotations)])],
                             [("registry.general_fetch_item" : String),
                              ("prov_api.create_model_run" : String)])

/-!  ## Theorems -/

theorem llmCalls_handleToolCall (env : ClientEnv) (tc : ToolCall) :
    llmCalls (handleToolCall env tc).events = 0 := by
  unfold handleToolCall execRegularTool
  repeat' split <;>
    try simp [llmCalls, List.countP_cons, List.countP_nil, Event.isLlmCall]

theorem llmCalls_handleBatch (env : ClientEnv) (tcs : List ToolCall) :
    llmCalls (handleBatch env tcs).events = 0 := by
  induction tcs with
  | nil => rfl
  | cons tc rest ih =>
      have h1 := llmCalls_handleToolCall env tc
      simp only [llmCalls] at h1 ih ⊢
      simp only [handleBatch, List.countP_append]
      omega

theorem ai_chat_loop_rounds_all_tools (env : ClientEnv)
    (h : ∀ ms, ((env.llm ms).tool_calls).isEmpty = false) :
    ∀ (n : Nat) (messages : List Msg),
      (ai_chat_loop_rounds env n messages).outcome = .aborted ∧
      llmCalls (ai_chat_loop_rounds env n messages).events = n ∧
      (ai_chat_loop_rounds env n messages).events.any Event.isAbortNotice = true := by
  intro n
  induction n with
  | zero =>
      intro messages
      refine ⟨rfl, ?_, ?_⟩ <;>
        simp [ai_chat_loop_rounds, llmCalls, Event.isLlmCall, Event.isAbortNotice]
  | succ k ih =>
      intro messages
      unfold ai_chat_loop_rounds
      rw [if_pos (h messages)]
      have ihx := ih ((messages ++ [env.llm messages]) ++
        (handleBatch env (env.llm messages).tool_calls).msgs)
      refine ⟨ihx.1, ?_, ?_⟩
      · have hb := llmCalls_handleBatch env (env.llm messages).tool_calls
        simp only [llmCalls] at hb ihx ⊢
        simp only [List.countP_cons, List.countP_append, Event.isLlmCall]
        rw [hb, ihx.2.1]
        simp
      · have := ihx.2.2
        simp only [List.any_cons, List.any_append]
        rw [this]
        simp

/-- C1: for every user turn, if every LLM response contains at least one
tool-call request, the orchestration loop stops issuing further LLM calls
after exactly 12 rounds (exactly 12 LLM calls appear in the trace), prints
the user-visible round-limit notice, and terminates the turn normally with
the `aborted` outcome (the loop function is total, so no exception is
raised): the per-turn loop always terminates regardless of the LLM and
tool oracles. -/
theorem c1_round_termination (env : ClientEnv) (messages : List Msg)
    (h : ∀ ms, ((env.llm ms).tool_calls).isEmpty = false) :
    (ai_chat_loop_turn env messages).outcome = .aborted ∧
    llmCalls (ai_chat_loop_turn env messages).events = 12 ∧
    (ai_chat_loop_turn env messages).events.any Event.isAbortNotice = true :=
  ai_chat_loop_rounds_all_tools env h 12 messages

/-- A tool call used by concrete environments below. -/
def tc0 : ToolCall :=
  { id := ("call_1" : String), function_name := ("search_registry" : String),
    arguments := ("" : String) }

/-- A concrete environment whose LLM always requests one tool call. -/
def c1Env : ClientEnv :=
  { llm := fun _ => { role := .assistant, content := .str ("working"), tool_calls := [tc0] },
    json_loads := fun _ => some (PyVal.dict []),
    get_prompt := fun _ _ => .ok ("prompt text"),
    call_tool := fun _ _ => .ok (statusContent ("success") ("ok")),
    confirm := fun _ => ("yes") }

theorem c1_round_termination_witness :
    (∀ ms, ((c1Env.llm ms).tool_calls).isEmpty = false) ∧
    ((ai_chat_loop_turn c1Env []).outcome = .aborted ∧
     llmCalls (ai_chat_loop_turn c1Env []).events = 12 ∧
     (ai_chat_loop_turn c1Env []).events.any Event.isAbortNotice = true) :=
  ⟨fun _ => rfl, c1_round_termination c1Env [] (fun _ => rfl)⟩

/-- C2: for every tool-call request whose name is classified as requiring
confirmation — `requires_confirmation` is true exactly when the name
begins with `create` case-insensitively, by definition — if the human
operator declines the prompt (the normalised answer is neither `yes` nor
`y`), the ServiceGateway is never invoked for the request and the only
appended message is a tool outcome with status `cancelled` and a
human-readable cancellation message.  (A name beginning with the creation
marker never begins with the prompt prefix `get_prompt_`; the hypothesis
records this disjointness explicitly.) -/
theorem c2_confirmation_gating (env : ClientEnv) (tc : ToolCall)
    (hconf : requires_confirmation tc.function_name = true)
    (hnp : pyStartsWith tc.function_name ("get_prompt_") = false)
    (hdecl : ((pyLower (pyTrim (env.confirm tc)) == "yes")
              || (pyLower (pyTrim (env.confirm tc)) == "y")) = false) :
    (handleToolCall env tc).msgs =
      [toolMsg tc.id (statusContent ("cancelled")
        (("User cancelled call to ") ++ tc.function_name ++ (".")))] ∧
    gatewayCallsOf (handleToolCall env tc).events = [] := by
  unfold handleToolCall
  simp [hnp, hconf, hdecl, gatewayCallsOf, Event.isGatewayCall]

/-- A create-classified tool call declined by the operator. -/
def c2Env : ClientEnv :=
  { llm := fun _ => { role := .assistant, content := .str ("done") },
    json_loads := fun _ => some (PyVal.dict []),
    get_prompt := fun _ _ => .ok ("prompt text"),
    call_tool := fun _ _ => .ok (statusContent ("success") ("ok")),
    confirm := fun _ => ("no") }

/-- The declined creation request of the witness. -/
def c2Tc : ToolCall :=
  { id := ("call_7" : String), function_name := ("create_dataset" : String),
    arguments := ("" : String) }

theorem c2_confirmation_gating_witness :
    requires_confirmation c2Tc.function_name = true ∧
    pyStartsWith c2Tc.function_name ("get_prompt_") = false ∧
    ((pyLower (pyTrim (c2Env.confirm c2Tc)) == "yes")
     || (pyLower (pyTrim (c2Env.confirm c2Tc)) == "y")) = false ∧
    ((handleToolCall c2Env c2Tc).msgs =
      [toolMsg c2Tc.id (statusContent ("cancelled")
        (("User cancelled call to ") ++ c2Tc.function_name ++ (".")))] ∧
     gatewayCallsOf (handleToolCall c2Env c2Tc).events = []) :=
  ⟨by decide, by decide, by decide,
   c2_confirmation_gating c2Env c2Tc (by decide) (by decide) (by decide)⟩

/-- Number of tool-role result messages correlated to request id `i`. -/
def toolResultCount (i : String) (msgs : List Msg) : Nat :=
  msgs.countP (fun m => (m.role == Role.tool) && (m.tool_call_id == some i))

theorem toolResultCount_handleToolCall (env : ClientEnv) (tc : ToolCall) (i : String) :
    toolResultCount i (handleToolCall env tc).msgs = if tc.id = i then 1 else 0 := by
  by_cases h : tc.id = i <;>
    (simp only [handleToolCall, execRegularTool, toolMsg]
     repeat' split <;>
       try simp [toolResultCount, List.countP_cons, List.countP_nil, h])

/-- C3: for every assistant message with tool-call requests, each request
in the batch produces exactly one tool-role message carrying its
correlation id, across all branches of the per-request handling (prompt
expansion, cancellation, success, caught exception): for every id, the
number of tool-result messages the round appends equals the number of
requests bearing that id.  By the loop definition these messages extend
the transcript that the next LLM call receives, i.e. they are appended
before the next assistant message. -/
theorem c3_outcome_pairing (env : ClientEnv) (tcs : List ToolCall) (i : String) :
    toolResultCount i (handleBatch env tcs).msgs = tcs.countP (fun tc => tc.id == i) := by
  induction tcs with
  | nil => rfl
  | cons tc rest ih =>
      have h1 := toolResultCount_handleToolCall env tc i
      simp only [toolResultCount] at h1 ih ⊢
      simp only [handleBatch, List.countP_append, List.countP_cons]
      rw [h1, ih]
      by_cases h : tc.id = i <;> (simp [h]; try omega)

theorem llmCalls_rounds_pos (env : ClientEnv) (k : Nat) (ms : List Msg) :
    1 ≤ llmCalls (ai_chat_loop_rounds env (k + 1) ms).events := by
  simp only [ai_chat_loop_rounds]
  split <;> simp [llmCalls, Event.isLlmCall, List.countP_cons]

theorem llmCalls_turn_continues (env : ClientEnv) (k : Nat) (ms0 : List Msg)
    (hllm : (env.llm ms0).tool_calls.isEmpty = false) :
    2 ≤ llmCalls (ai_chat_loop_rounds env (k + 1 + 1) ms0).events := by
  simp only [ai_chat_loop_rounds]
  rw [if_pos hllm]
  have hb := llmCalls_handleBatch env (env.llm ms0).tool_calls
  simp only [llmCalls] at hb ⊢
  simp only [List.countP_cons, List.countP_append, Event.isLlmCall, hb]
  split <;>
    (simp [List.countP_cons, List.countP_append, List.countP_nil, Event.isLlmCall]
     try omega)

/-- C4: if executing one request of a batch raises an exception (the
gateway oracle errors), the exception is absorbed at the per-request
boundary into a tool-result message with content
`status: error, message: <description>`; the batch handling is the
concatenation of the independent per-request handlings, so every other
request still executes and produces its own outcome; and a turn whose
first response carries tool calls always reaches a further LLM call
(at least two appear in the trace) instead of aborting. -/
theorem c4_error_absorption (env : ClientEnv) (pre post : List ToolCall) (tc : ToolCall)
    (e : String) (ms0 : List Msg)
    (hnp : pyStartsWith tc.function_name ("get_prompt_") = false)
    (hconf : requires_confirmation tc.function_name = false)
    (he : env.call_tool tc.function_name (parseArgsVal env tc) = .error e)
    (hllm : (env.llm ms0).tool_calls.isEmpty = false) :
    (handleToolCall env tc).msgs = [toolMsg tc.id (statusContent ("error") e)] ∧
    (handleBatch env (pre ++ tc :: post)).msgs =
      (handleBatch env pre).msgs ++ (handleToolCall env tc).msgs
        ++ (handleBatch env post).msgs ∧
    (handleBatch env (pre ++ tc :: post)).events =
      (handleBatch env pre).events ++ (handleToolCall env tc).events
        ++ (handleBatch env post).events ∧
    2 ≤ llmCalls (ai_chat_loop_turn env ms0).events := by
  refine ⟨?_, ?_, ?_, ?_⟩
  · unfold handleToolCall execRegularTool
    simp [hnp, hconf, he]
  · induction pre with
    | nil => simp [handleBatch]
    | cons p rest ih => simp [handleBatch, ih]
  · induction pre with
    | nil => simp [handleBatch]
    | cons p rest ih => simp [handleBatch, ih]
  · exact llmCalls_turn_continues env 10 ms0 hllm

/-- A batch of three where the middle request raises. -/
def c4Env : ClientEnv :=
  { llm := fun _ =>
      { role := .assistant, content := .str ("working"),
        tool_calls :=
          [{ id := ("a" : String), function_name := ("fetch_registry_item" : String),
             arguments := ("" : String) },
           { id := ("b" : String), function_name := ("explode" : String),
             arguments := ("" : String) },
           { id := ("c" : String), function_name := ("list_registry_items" : String),
             arguments := ("" : String) }] },
    json_loads := fun _ => some (PyVal.dict []),
    get_prompt := fun _ _ => .ok ("prompt text"),
    call_tool := fun name _ =>
      if name == "explode" then .error ("boom") else .ok (statusContent ("success") ("ok")),
    confirm := fun _ => ("yes") }

/-- The middle, raising request of the witness batch. -/
def c4Tc : ToolCall :=
  { id := ("b" : String), function_name := ("explode" : String), arguments := ("" : String) }

theorem c4_error_absorption_witness :
    pyStartsWith c4Tc.function_name ("get_prompt_") = false ∧
    requires_confirmation c4Tc.function_name = false ∧
    c4Env.call_tool c4Tc.function_name (parseArgsVal c4Env c4Tc) = .error ("boom") ∧
    (c4Env.llm []).tool_calls.isEmpty = false ∧
    ((handleToolCall c4Env c4Tc).msgs =
       [toolMsg c4Tc.id (statusContent ("error") ("boom"))] ∧
     (handleBatch c4Env ((c4Env.llm []).tool_calls.take 1 ++ c4Tc ::
         (c4Env.llm []).tool_calls.drop 2)).msgs =
       (handleBatch c4Env ((c4Env.llm []).tool_calls.take 1)).msgs
         ++ (handleToolCall c4Env c4Tc).msgs
         ++ (handleBatch c4Env ((c4Env.llm []).tool_calls.drop 2)).msgs ∧
     (handleBatch c4Env ((c4Env.llm []).tool_calls.take 1 ++ c4Tc ::
         (c4Env.llm []).tool_calls.drop 2)).events =
       (handleBatch c4Env ((c4Env.llm []).tool_calls.take 1)).events
         ++ (handleToolCall c4Env c4Tc).events
         ++ (handleBatch c4Env ((c4Env.llm []).tool_calls.drop 2)).events ∧
     2 ≤ llmCalls (ai_chat_loop_turn c4Env []).events) :=
  ⟨by decide, by decide, rfl, rfl,
   c4_error_absorption c4Env ((c4Env.llm []).tool_calls.take 1)
     ((c4Env.llm []).tool_calls.drop 2) c4Tc ("boom") []
     (by decide) (by decide) rfl rfl⟩

/-- C8: for every request whose name starts with the prompt pseudo-tool
prefix `get_prompt_`, the orchestrator resolves the named prompt (the
prefix removed) and appends exactly two messages: a tool-result message
keyed by the request id containing the resolved text, and a system-role
message containing the same text (under the standing
`Workflow Instructions:` banner); no ServiceGateway call is made. -/
theorem c8_prompt_expansion (env : ClientEnv) (tc : ToolCall) (content : String)
    (hp : pyStartsWith tc.function_name ("get_prompt_") = true)
    (hok : env.get_prompt (pyReplace tc.function_name ("get_prompt_") (""))
             (parseArgsVal env tc) = .ok content) :
    (handleToolCall env tc).msgs =
      [toolMsg tc.id (.str content),
       { role := .system, content := .str (("Workflow Instructions: ") ++ content) }] ∧
    gatewayCallsOf (handleToolCall env tc).events = [] := by
  unfold handleToolCall
  simp [hp, hok, gatewayCallsOf, Event.isGatewayCall]

/-- A prompt pseudo-tool request. -/
def c8Env : ClientEnv :=
  { llm := fun _ => { role := .assistant, content := .str ("done") },
    json_loads := fun _ => some (PyVal.dict []),
    get_prompt := fun _ _ => .ok ("workflow body"),
    call_tool := fun _ _ => .ok (statusContent ("success") ("ok")),
    confirm := fun _ => ("yes") }

/-- The prompt request of the witness. -/
def c8Tc : ToolCall :=
  { id := ("call_9" : String),
    function_name := ("get_prompt_dataset_registration_workflow" : String),
    arguments := ("" : String) }

theorem c8_prompt_expansion_witness :
    pyStartsWith c8Tc.function_name ("get_prompt_") = true ∧
    c8Env.get_prompt (pyReplace c8Tc.function_name ("get_prompt_") (""))
      (parseArgsVal c8Env c8Tc) = .ok ("workflow body") ∧
    ((handleToolCall c8Env c8Tc).msgs =
      [toolMsg c8Tc.id (.str ("workflow body")),
       { role := .system, content := .str (("Workflow Instructions: ") ++ ("workflow body")) }] ∧
     gatewayCallsOf (handleToolCall c8Env c8Tc).events = []) :=
  ⟨by decide, rfl,
   c8_prompt_expansion c8Env c8Tc ("workflow body") (by decide) rfl⟩

theorem ai_chat_loop_rounds_messages_extend (env : ClientEnv) :
    ∀ (n : Nat) (ms : List Msg), ∃ rest, (ai_chat_loop_rounds env n ms).messages = ms ++ rest := by
  intro n
  induction n with
  | zero => intro ms; exact ⟨[], by simp [ai_chat_loop_rounds]⟩
  | succ k ih =>
      intro ms
      simp only [ai_chat_loop_rounds]
      split
      · obtain ⟨rest, hr⟩ :=
          ih ((ms ++ [env.llm ms]) ++ (handleBatch env (env.llm ms).tool_calls).msgs)
        exact ⟨[env.llm ms] ++ (handleBatch env (env.llm ms).tool_calls).msgs ++ rest,
          by simpa using hr⟩
      · exact ⟨[env.llm ms], by simp⟩

/-- C7 counterexample: the source has no sentinel check — with an LLM that
answers immediately, the input line `quit` is stripped, appended as a user
message, and a full turn (one LLM call) is run for it; the session then
also processes a subsequent `exit` line the same way.  So entering `quit`
or `exit` does not terminate the session and is treated as a new user
turn, contradicting the claim. -/
theorem c7_quit_counterexample :
    (ai_chat_loop_session
        { llm := fun _ => { role := .assistant, content := .str ("hello") },
          json_loads := fun _ => some (PyVal.dict []),
          get_prompt := fun _ _ => .ok ("p"),
          call_tool := fun _ _ => .ok (statusContent ("success") ("ok")),
          confirm := fun _ => ("yes") }
        [] [("quit"), ("exit")]).1 =
      [{ role := Role.user, content := .str ("quit") },
       { role := Role.assistant, content := .str ("hello") },
       { role := Role.user, content := .str ("exit") },
       { role := Role.assistant, content := .str ("hello") }] ∧
    llmCalls (ai_chat_loop_session
        { llm := fun _ => { role := .assistant, content := .str ("hello") },
          json_loads := fun _ => some (PyVal.dict []),
          get_prompt := fun _ _ => .ok ("p"),
          call_tool := fun _ _ => .ok (statusContent ("success") ("ok")),
          confirm := fun _ => ("yes") }
        [] [("quit"), ("exit")]).2 = 2 :=
  ⟨rfl, rfl⟩

/-- C7 amended: the read-evaluate-print loop has no sentinel inputs.
Every input line — `quit` and `exit` included — is stripped and treated
as a new user turn: the user message is appended to the transcript and
the turn runs (at least one LLM call is issued).  The session only ends
externally (Ctrl+C / end of input). -/
theorem c7_session_no_sentinel (env : ClientEnv) (messages : List Msg) (line : String) :
    (∃ rest,
      (ai_chat_loop_step env messages line).messages =
        messages ++ ({ role := Role.user, content := .str (pyTrim line) } : Msg) :: rest) ∧
    1 ≤ llmCalls (ai_chat_loop_step env messages line).events := by
  constructor
  · obtain ⟨rest, hr⟩ := ai_chat_loop_rounds_messages_extend env 12
      (messages ++ [{ role := Role.user, content := .str (pyTrim line) }])
    exact ⟨rest, by simpa [ai_chat_loop_step, ai_chat_loop_turn] using hr⟩
  · have h1 := llmCalls_rounds_pos env 11
      (messages ++ [{ role := Role.user, content := .str (pyTrim line) }])
    simpa [ai_chat_loop_step, ai_chat_loop_turn] using h1

/-- C9: the login operation is idempotent when already authenticated:
whenever the stored credential reports authenticated, `authenticate`
returns the `already_authenticated` outcome, leaves the stored credential
and client unchanged, and does not run the device flow. -/
theorem c9_login_idempotent (m : ProvenaAuthManager) (flow : DeviceFlowOutcome)
    (h : m._is_authenticated = true) :
    m.authenticate flow =
      (sdict [(("status" : String), .str ("already_authenticated")),
              (("message" : String), .str ("Already authenticated"))], m, false) := by
  unfold ProvenaAuthManager.authenticate
  rw [if_pos h]

/-- An authenticated manager state (a JWT-like token with two dots). -/
def c9Mgr : ProvenaAuthManager :=
  { _client := some (), _auth := some { tokens := some ("h.p.s") } }

theorem c9_login_idempotent_witness :
    c9Mgr._is_authenticated = true ∧
    c9Mgr.authenticate (.flowExn ("device flow must not run")) =
      (sdict [(("status" : String), .str ("already_authenticated")),
              (("message" : String), .str ("Already authenticated"))], c9Mgr, false) :=
  ⟨by decide, c9_login_idempotent c9Mgr (.flowExn ("device flow must not run")) (by decide)⟩

theorem require_authentication_none (env : ServerEnv)
    (h : env.mgr._is_authenticated = false) : require_authentication env = Option.none := by
  simp [require_authentication, ProvenaAuthManager.get_client, h]

/-- C5: every guarded tool (the read tools and all creation tools), when
invoked while the authentication state reports unauthenticated, returns
exactly the error mapping with message `Authentication required` and
performs no SDK call (its ServiceGateway trace is empty). -/
theorem c5_auth_precondition (env : ServerEnv)
    (query : String) (limit : Option Int) (subtype_filter : Option String)
    (item_id : String) (page_size : Option Int) (starting_id : String) (depth : Int)
    (entity_id : String) (max_depth : Int) (iu idn ira : Bool)
    (relationship_type : String) (entity_types : Option String)
    (name display_name model_id wtid dn st en fn ln : String)
    (um dr dfr itids otids ra oa ids ods ann dno : Option String)
    (h : env.mgr._is_authenticated = false) :
    search_registry env query limit subtype_filter = (authRequired, []) ∧
    fetch_registry_item env item_id = (authRequired, []) ∧
    list_registry_items env page_size = (authRequired, []) ∧
    get_registry_items_count env = (authRequired, []) ∧
    explore_upstream env starting_id depth = (authRequired, []) ∧
    explore_downstream env starting_id depth = (authRequired, []) ∧
    research_entity env entity_id max_depth iu idn ira = (authRequired, []) ∧
    find_related_entities env entity_id relationship_type entity_types = (authRequired, []) ∧
    create_model env name um = (authRequired, []) ∧
    create_dataset_template env display_name dr dfr um = (authRequired, []) ∧
    create_model_run_workflow_template env display_name model_id itids otids ra oa um
      = (authRequired, []) ∧
    create_dataset env name = (authRequired, []) ∧
    create_person env fn ln dno = (authRequired, []) ∧
    create_organisation env name dno = (authRequired, []) ∧
    create_model_run env wtid dn st en ids ods ann um = (authRequired, []) := by
  have hra := require_authentication_none env h
  refine ⟨?_, ?_, ?_, ?_, ?_, ?_, ?_, ?_, ?_, ?_, ?_, ?_, ?_, ?_, ?_⟩ <;>
    simp only [search_registry, fetch_registry_item, list_registry_items,
      get_registry_items_count, explore_upstream, explore_downstream, research_entity,
      find_related_entities, create_model, create_dataset_template,
      create_model_run_workflow_template, create_dataset, create_person,
      create_organisation, create_model_run, hra]

/-- A concrete SDK oracle for witnesses. -/
def sdk0 : Sdk :=
  { item_subtypes := [("DATASET" : String), ("PERSON" : String)],
    prov_api_available := true,
    search_registry := fun _ _ _ =>
      .ok { success := true, details := Option.none, results := [] },
    general_fetch_item := fun _ =>
      .ok { success := true, details := Option.none,
            item := some [(PyVal.str ("item_subtype"), PyVal.str ("DATASET"))] },
    list_general_registry_items :=
      .ok { success := true, details := Option.none, items := [],
            total_item_count := Option.none, complete_item_count := Option.none,
            has_pagination_key := false },
    list_registry_items_with_count := .ok [],
    explore_upstream := fun _ _ => .ok (PyVal.dict []),
    explore_downstream := fun _ _ => .ok (PyVal.dict []),
    get_contributing_datasets := fun _ _ => .ok (PyVal.dict []),
    get_effected_datasets := fun _ _ => .ok (PyVal.dict []),
    get_contributing_agents := fun _ _ => .ok (PyVal.dict []),
    get_effected_agents := fun _ _ => .ok (PyVal.dict []),
    model_create_item := .ok { success := true, details := Option.none,
                               created_item := some ("10378.1/1") },
    dataset_template_create_item := .ok { success := true, details := Option.none,
                                          created_item := some ("10378.1/2") },
    model_run_workflow_create_item := .ok { success := true, details := Option.none,
                                            created_item := some ("10378.1/3") },
    mint_dataset := .ok { success := true, details := Option.none, handle := ("10378.1/4") },
    person_create_item := .ok { success := true, details := Option.none,
                                created_item := some ("10378.1/5") },
    organisation_create_item := .ok { success := true, details := Option.none,
                                      created_item := some ("10378.1/6") },
    prov_create_model_run := .ok { success := true, details := Option.none,
                                   session_id := PyVal.str ("sess-1") } }

/-- A server environment whose auth state is unauthenticated. -/
def c5Env : ServerEnv :=
  { mgr := { _client := Option.none, _auth := Option.none },
    client_creation_ok := true,
    sdk := sdk0,
    json_loads := fun _ => .ok (PyVal.dict []),
    parse_iso_timestamp := fun _ => .ok 0,
    build_model_info := .ok (),
    build_dataset_template_info := .ok (),
    build_workflow_template_info := .ok (),
    build_collection_format := .ok (),
    build_person_info := .ok (),
    build_organisation_info := .ok (),
    build_model_run_record := .ok () }

theorem c5_auth_precondition_witness :
    c5Env.mgr._is_authenticated = false ∧
    (search_registry c5Env ("reef") (some 5) Option.none = (authRequired, []) ∧
     fetch_registry_item c5Env ("10378.1/9") = (authRequired, []) ∧
     list_registry_items c5Env (some 20) = (authRequired, []) ∧
     get_registry_items_count c5Env = (authRequired, []) ∧
     explore_upstream c5Env ("10378.1/9") 1 = (authRequired, []) ∧
     explore_downstream c5Env ("10378.1/9") 1 = (authRequired, []) ∧
     research_entity c5Env ("10378.1/9") 3 true true true = (authRequired, []) ∧
     find_related_entities c5Env ("10378.1/9") ("all") Option.none = (authRequired, []) ∧
     create_model c5Env ("m") Option.none = (authRequired, []) ∧
     create_dataset_template c5Env ("t") Option.none Option.none Option.none
       = (authRequired, []) ∧
     create_model_run_workflow_template c5Env ("w") ("10378.1/1") Option.none Option.none
       Option.none Option.none Option.none = (authRequired, []) ∧
     create_dataset c5Env ("d") = (authRequired, []) ∧
     create_person c5Env ("Ada") ("Lovelace") Option.none = (authRequired, []) ∧
     create_organisation c5Env ("Acme") Option.none = (authRequired, []) ∧
     create_model_run c5Env ("10378.1/3") ("run") ("2024-01-01T00:00:00Z")
       ("2024-01-02T00:00:00Z") Option.none Option.none Option.none Option.none
       = (authRequired, [])) :=
  ⟨rfl,
   c5_auth_precondition c5Env ("reef") (some 5) Option.none ("10378.1/9") (some 20)
     ("10378.1/9") 1 ("10378.1/9") 3 true true true ("all") Option.none
     ("m") ("t") ("10378.1/1") ("10378.1/3") ("run") ("2024-01-01T00:00:00Z")
     ("2024-01-02T00:00:00Z") ("Ada") ("Lovelace")
     Option.none Option.none Option.none Option.none Option.none Option.none Option.none
     Option.none Option.none Option.none Option.none rfl⟩

/-- Does a mapping carry a `status` key? -/
def hasStatusKey (v : PyVal) : Bool :=
  (v.lookupStr ("status")).isSome

/-- C6 counterexample: three tools violate the claimed output contract on
every input — `logout_from_provena` returns a mapping with only a
`message` key, `check_authentication_status` returns a mapping with
`authenticated` and `message` keys, and `get_current_date` does not even
return a mapping but a bare date string. -/
theorem c6_status_contract_counterexample :
    (logout_from_provena { _client := Option.none, _auth := Option.none }).1.isDict = true ∧
    hasStatusKey (logout_from_provena { _client := Option.none, _auth := Option.none }).1
      = false ∧
    hasStatusKey (check_authentication_status { _client := Option.none, _auth := Option.none })
      = false ∧
    (get_current_date ("2026-10-12")).isDict = false :=
  ⟨rfl, rfl, rfl, rfl⟩

theorem search_registry_hasStatus (env : ServerEnv) (q : String) (l : Option Int)
    (sf : Option String) : hasStatusKey (search_registry env q l sf).1 = true := by
  simp only [search_registry]
  repeat' (first | rfl | split)

theorem fetch_registry_item_hasStatus (env : ServerEnv) (i : String) :
    hasStatusKey (fetch_registry_item env i).1 = true := by
  simp only [fetch_registry_item]
  repeat' (first | rfl | split)

theorem list_registry_items_hasStatus (env : ServerEnv) (ps : Option Int) :
    hasStatusKey (list_registry_items env ps).1 = true := by
  simp only [list_registry_items]
  repeat' (first | rfl | split)

theorem get_registry_items_count_hasStatus (env : ServerEnv) :
    hasStatusKey (get_registry_items_count env).1 = true := by
  simp only [get_registry_items_count]
  repeat' (first | rfl | split)

theorem explore_upstream_hasStatus (env : ServerEnv) (sid : String) (d : Int) :
    hasStatusKey (explore_upstream env sid d).1 = true := by
  simp only [explore_upstream]
  repeat' (first | rfl | split)

theorem explore_downstream_hasStatus (env : ServerEnv) (sid : String) (d : Int) :
    hasStatusKey (explore_downstream env sid d).1 = true := by
  simp only [explore_downstream]
  repeat' (first | rfl | split)

theorem research_entity_hasStatus (env : ServerEnv) (entity_id : String) (max_depth : Int)
    (iu idn ira : Bool) :
    hasStatusKey (research_entity env entity_id max_depth iu idn ira).1 = true := by
  simp only [research_entity]
  repeat' (first | rfl | split)

theorem find_related_entities_hasStatus (env : ServerEnv) (eid rt : String)
    (et : Option String) : hasStatusKey (find_related_entities env eid rt et).1 = true := by
  simp only [find_related_entities]
  repeat' (first | rfl | split)

theorem create_model_hasStatus (env : ServerEnv) (n : String) (um : Option String) :
    hasStatusKey (create_model env n um).1 = true := by
  simp only [create_model]
  repeat' (first | rfl | split)

theorem create_dataset_template_hasStatus (env : ServerEnv) (dn : String)
    (dr dfr um : Option String) :
    hasStatusKey (create_dataset_template env dn dr dfr um).1 = true := by
  simp only [create_dataset_template]
  repeat' (first | rfl | split)

theorem create_model_run_workflow_template_hasStatus (env : ServerEnv) (dn mi : String)
    (a b c d e : Option String) :
    hasStatusKey (create_model_run_workflow_template env dn mi a b c d e).1 = true := by
  simp only [create_model_run_workflow_template]
  repeat' (first | rfl | split)

theorem create_dataset_hasStatus (env : ServerEnv) (n : String) :
    hasStatusKey (create_dataset env n).1 = true := by
  simp only [create_dataset]
  repeat' (first | rfl | split)

theorem create_person_hasStatus (env : ServerEnv) (f l : String) (d : Option String) :
    hasStatusKey (create_person env f l d).1 = true := by
  simp only [create_person]
  repeat' (first | rfl | split)

theorem create_organisation_hasStatus (env : ServerEnv) (n : String) (d : Option String) :
    hasStatusKey (create_organisation env n d).1 = true := by
  simp only [create_organisation]
  repeat' (first | rfl | split)

theorem create_model_run_hasStatus (env : ServerEnv) (w dn st en : String)
    (a b c d : Option String) :
    hasStatusKey (create_model_run env w dn st en a b c d).1 = true := by
  simp only [create_model_run]
  repeat' (first | rfl | split)

theorem login_to_provena_hasStatus (m : ProvenaAuthManager) (flow : DeviceFlowOutcome) :
    hasStatusKey (login_to_provena m flow).1 = true := by
  simp only [login_to_provena, ProvenaAuthManager.authenticate]
  repeat' (first | rfl | split)

/-- C6 amended: every tool except `check_authentication_status`,
`logout_from_provena` and `get_current_date` returns, on every input and
every oracle behaviour, a mapping that contains a `status` key (success
carrying the operation data, failure carrying an error message); the three
exceptions return `(authenticated, message)`, `(message)` and a bare date
string respectively (see the counterexample). -/
theorem c6_status_contract (env : ServerEnv) (m : ProvenaAuthManager)
    (flow : DeviceFlowOutcome)
    (query : String) (limit : Option Int) (subtype_filter : Option String)
    (item_id : String) (page_size : Option Int) (starting_id : String) (depth : Int)
    (entity_id : String) (max_depth : Int) (iu idn ira : Bool)
    (relationship_type : String) (entity_types : Option String)
    (name display_name model_id wtid dn st en fn ln : String)
    (um dr dfr itids otids ra oa ids ods ann dno : Option String) :
    hasStatusKey (search_registry env query limit subtype_filter).1 = true ∧
    hasStatusKey (fetch_registry_item env item_id).1 = true ∧
    hasStatusKey (list_registry_items env page_size).1 = true ∧
    hasStatusKey (get_registry_items_count env).1 = true ∧
    hasStatusKey (explore_upstream env starting_id depth).1 = true ∧
    hasStatusKey (explore_downstream env starting_id depth).1 = true ∧
    hasStatusKey (research_entity env entity_id max_depth iu idn ira).1 = true ∧
    hasStatusKey (find_related_entities env entity_id relationship_type entity_types).1
      = true ∧
    hasStatusKey (create_model env name um).1 = true ∧
    hasStatusKey (create_dataset_template env display_name dr dfr um).1 = true ∧
    hasStatusKey
      (create_model_run_workflow_template env display_name model_id itids otids ra oa um).1
      = true ∧
    hasStatusKey (create_dataset env name).1 = true ∧
    hasStatusKey (create_person env fn ln dno).1 = true ∧
    hasStatusKey (create_organisation env name dno).1 = true ∧
    hasStatusKey (create_model_run env wtid dn st en ids ods ann um).1 = true ∧
    hasStatusKey (login_to_provena m flow).1 = true :=
  ⟨search_registry_hasStatus env query limit subtype_filter,
   fetch_registry_item_hasStatus env item_id,
   list_registry_items_hasStatus env page_size,
   get_registry_items_count_hasStatus env,
   explore_upstream_hasStatus env starting_id depth,
   explore_downstream_hasStatus env starting_id depth,
   research_entity_hasStatus env entity_id max_depth iu idn ira,
   find_related_entities_hasStatus env entity_id relationship_type entity_types,
   create_model_hasStatus env name um,
   create_dataset_template_hasStatus env display_name dr dfr um,
   create_model_run_workflow_template_hasStatus env display_name model_id itids otids ra oa um,
   create_dataset_hasStatus env name,
   create_person_hasStatus env fn ln dno,
   create_organisation_hasStatus env name dno,
   create_model_run_hasStatus env wtid dn st en ids ods ann um,
   login_to_provena_hasStatus m flow⟩

theorem fetchRelatedStep_related (env : ServerEnv) (acc : RelatedAcc) (rid : PyVal) :
    (fetchRelatedStep env acc rid).related = acc.related ∨
    ∃ v, (fetchRelatedStep env acc rid).related = acc.related ++ [(rid, v)] := by
  unfold fetchRelatedStep
  repeat' split
  all_goals
    first
      | exact Or.inl rfl
      | exact Or.inr ⟨_, rfl⟩

theorem foldl_fetchRelated_length (env : ServerEnv) (ids : List PyVal) :
    ∀ acc : RelatedAcc,
      (ids.foldl (fetchRelatedStep env) acc).related.length
        ≤ acc.related.length + ids.length := by
  induction ids with
  | nil => intro acc; simp
  | cons rid rest ih =>
      intro acc
      have hrec := ih (fetchRelatedStep env acc rid)
      rcases fetchRelatedStep_related env acc rid with h | ⟨v, h⟩ <;>
        (simp only [List.foldl_cons, List.length_cons]
         rw [h] at hrec
         try simp only [List.length_append, List.length_cons, List.length_nil] at hrec
         omega)

theorem foldl_fetchRelated_all (env : ServerEnv) (root : PyVal) (ids : List PyVal)
    (hids : ids.all (fun rid => !PyVal.beq rid root) = true) :
    ∀ acc : RelatedAcc,
      acc.related.all (fun kv => !PyVal.beq kv.1 root) = true →
      ((ids.foldl (fetchRelatedStep env) acc).related.all
        (fun kv => !PyVal.beq kv.1 root)) = true := by
  induction ids with
  | nil => intro acc h; simpa using h
  | cons rid rest ih =>
      simp only [List.all_cons, Bool.and_eq_true] at hids
      intro acc hacc
      simp only [List.foldl_cons]
      apply ih hids.2
      rcases fetchRelatedStep_related env acc rid with h | ⟨v, h⟩
      · rw [h]; exact hacc
      · rw [h]
        simp [List.all_append, hacc, hids.1]

theorem pyAllTake {α : Type} (p : α → Bool) :
    ∀ (xs : List α) (n : Nat), xs.all p = true → (xs.take n).all p = true := by
  intro xs
  induction xs with
  | nil => intro n _; simp
  | cons x rest ih =>
      intro n h
      simp only [List.all_cons, Bool.and_eq_true] at h
      cases n with
      | zero => simp
      | succ m =>
          simp only [List.take_succ_cons, List.all_cons, Bool.and_eq_true]
          exact ⟨h.1, ih m h.2⟩

theorem pyAllFilter (p : PyVal → Bool) (l : List PyVal) :
    (l.filter p).all p = true := by
  induction l with
  | nil => rfl
  | cons x xs ih => by_cases hp : p x <;> simp [List.filter_cons, hp, ih]

theorem all_filterMap_keys (fields : List (String × Option PyVal)) (k : String)
    (h : fields.all (fun f => !(f.1 == k)) = true) :
    ((fields.filterMap (fun kv => kv.2.map (fun v => (PyVal.str kv.1, v)))).all
      (fun kv => !PyVal.beq kv.1 (.str k))) = true := by
  induction fields with
  | nil => rfl
  | cons f rest ih =>
      simp only [List.all_cons, Bool.and_eq_true] at h
      cases hf : f.2 <;>
        simp [List.filterMap_cons, hf, ih h.2, PyVal.beq, h.1]

theorem lookup_last_of_keys_ne (l : List (PyVal × PyVal)) (k : String) (v : PyVal)
    (h : l.all (fun kv => !PyVal.beq kv.1 (.str k)) = true) :
    PyVal.lookupStr (.dict (l ++ [(.str k, v)])) k = some v := by
  simp only [PyVal.lookupStr]
  induction l with
  | nil => simp [lookupKey, PyVal.beq]
  | cons kv rest ih =>
      simp only [List.all_cons, Bool.and_eq_true] at h
      simp only [List.cons_append, lookupKey]
      rw [if_neg]
      · exact ih h.2
      · simpa using h.1

theorem fetchRelatedLoop_all (env : ServerEnv) (root : PyVal) (ids : List PyVal)
    (hids : ids.all (fun rid => !PyVal.beq rid root) = true) :
    (fetchRelatedLoop env ids).related.all (fun kv => !PyVal.beq kv.1 root) = true :=
  foldl_fetchRelated_all env root ids hids { related := [], counts := [], trace := [] } rfl

theorem fetchRelatedLoop_length (env : ServerEnv) (ids : List PyVal) :
    (fetchRelatedLoop env ids).related.length ≤ ids.length := by
  have h := foldl_fetchRelated_length env ids { related := [], counts := [], trace := [] }
  simpa [fetchRelatedLoop] using h

/-- C10: every `research_entity` result either reports a failure (its
`status` is `error`) or is a success whose `related_entities` mapping
never contains the queried `entity_id` itself (the root id is discarded
from the collected node-id set before fetching) and has at most 100
entries (the fetch loop is capped at the first 100 unique ids), with
`statistics.total_related_entities` equal to that entry count, hence at
most 100, regardless of how large the lineage graphs are. -/
theorem c10_research_entity_related_caps (env : ServerEnv) (entity_id : String)
    (max_depth : Int) (iu idn ira : Bool) :
    ((research_entity env entity_id max_depth iu idn ira).1.lookupStr ("status")
       = some (.str ("error"))) ∨
    (((research_entity env entity_id max_depth iu idn ira).1.lookupStr ("status")
       = some (.str ("success"))) ∧
     ∃ related : List (PyVal × PyVal),
       (research_entity env entity_id max_depth iu idn ira).1.lookupStr ("related_entities")
         = some (.dict related) ∧
       related.all (fun kv => !PyVal.beq kv.1 (.str entity_id)) = true ∧
       related.length ≤ 100 ∧
       ((research_entity env entity_id max_depth iu idn ira).1.lookupStr
           ("statistics")).bind (fun s => s.lookupStr ("total_related_entities"))
         = some (.int related.length)) := by
  simp only [research_entity]
  cases hg : require_authentication env
  · exact Or.inl rfl
  case some u =>
  cases hf : env.sdk.general_fetch_item (.str entity_id)
  case error e => exact Or.inl rfl
  case ok fr =>
  dsimp only
  by_cases hsucc : fr.success = false
  · rw [if_pos hsucc]
    exact Or.inl rfl
  rw [if_neg hsucc]
  rcases hitem : fr.item with _ | rootKvs
  · exact Or.inl rfl
  dsimp only
  split
  next e heq => exact Or.inl rfl
  next allIds heq =>
    refine Or.inr ⟨rfl,
      (fetchRelatedLoop env
        ((allIds.filter (fun v => !PyVal.beq v (.str entity_id))).take 100)).related,
      ?_, ?_, ?_, ?_⟩
    · apply lookup_last_of_keys_ne
      rw [List.all_append, Bool.and_eq_true]
      constructor
      · rfl
      · apply all_filterMap_keys
        rfl
    · exact fetchRelatedLoop_all env (.str entity_id) _
        (pyAllTake _ _ 100 (pyAllFilter _ allIds))
    · exact le_trans (fetchRelatedLoop_length env _)
        (by simp [List.length_take])
    · rfl
